import Mathlib

/-!
# oidc-gen-token: a shallow embedding of `main.go`

The program performs one OpenID Connect authorization-code login from a local
process.  This file embeds `randStringRunes`, the argument check and set-up of
`main`, and the two HTTP handlers registered by `main`, and proves properties
of them.

Conventions of the embedding.

* Go strings are Lean strings; `len(s) == 0` is `s.utf8ByteSize = 0`.
* Code of other packages is either modelled from its documented behaviour
  (`http.Error`, `ResponseWriter.Write`, `os.OpenFile`, `File.Write`,
  `url.Values.Get`) or taken as a parameter (`Lib`: provider discovery, code
  exchange, `AuthCodeURL`, `http.Redirect`, `path.Dir`, `ListenAndServe`).
* Whether an operating-system call fails is decided by an explicit record
  (`OSFaults`), one per handler run.
* Effects are explicit: a handler maps a `ResponseWriter` and a `World`
  (file system, console streams, exit status, pending timers, and a log of the
  calls made to the collaborators) to the updated pair.  `os.Exit` ends the
  run: the embedding returns at that point.
-/

namespace OidcGenToken

/-! ## Data model -/

/-- The Go struct `cliConfig`. -/
structure cliConfig where
  clientID : String
  clientSecret : String
  issuer : String
  port : String
  saveToken : Bool
  daemon : Bool
  tokenFile : String

/-- A regular file: its content and permission bits. -/
structure FileEntry where
  content : String
  perm : Nat

/-- The part of the file system the program touches. -/
structure FileSystem where
  files : String → Option FileEntry
  dirs : String → Option Nat

/-- A call made to the `os` package, as recorded in the world. -/
inductive FsCall where
  | mkdirAll (path : String) (perm : Nat)
  | openFile (name : String) (flag : Nat) (perm : Nat)
  | write (name : String) (b : String)
  | close (name : String)
  deriving DecidableEq, Repr

/-- A goroutine `time.Sleep(delay); os.Exit(code)` that has been started. -/
structure Timer where
  delay : Nat
  code : Nat
  deriving DecidableEq, Repr

/-- Everything outside the HTTP response that a run can change. -/
structure World where
  fs : FileSystem
  fsCalls : List FsCall
  stdout : String
  stderr : String
  exit : Option Nat
  timers : List Timer
  providerCalls : List String
  exchangeCalls : List String
  verifyCalls : List String

/-- The state of an `http.ResponseWriter`: `status` is `none` until the header
has been written. -/
structure ResponseWriter where
  status : Option Nat
  header : List (String × String)
  body : String

/-- The parts of `*http.Request` the handlers read: the rendering of `r.URL`
and the parsed query `r.URL.Query()`, a map from a key to its values. -/
structure Request where
  method : String
  url : String
  query : String → List String

/-- A Go `interface{}` value as found among the extra fields of a token
response. -/
inductive Iface where
  | nil
  | str (s : String)
  | num (n : Int)
  | bool (b : Bool)

/-- The Go type `oauth2.Token`, with `Extra` as a function of the key. -/
structure Token where
  accessToken : String
  extra : String → Iface

/-- The Go type `oidc.IDToken`; the handler discards it. -/
structure IDToken where
  subject : String

/-- The Go type `oauth2.Endpoint`. -/
structure Endpoint where
  authURL : String
  tokenURL : String

/-- The Go type `oauth2.Config`. -/
structure OAuth2Config where
  clientID : String
  clientSecret : String
  endpoint : Endpoint
  redirectURL : String
  scopes : List String

/-- A verifier: `verifier.Verify(ctx, raw)`. -/
abbrev Verifier := String → Except String IDToken

/-- The Go type `oidc.Provider`: `Endpoint()` and `Verifier(&oidc.Config{ClientID})`. -/
structure Provider where
  endpoint : Endpoint
  verifier : String → Verifier

/-- The library calls taken as parameters. -/
structure Lib where
  newProvider : String → Except String Provider
  exchange : OAuth2Config → String → Except String Token
  authCodeURL : OAuth2Config → String → String
  redirect : ResponseWriter → Request → String → Nat → ResponseWriter
  pathDir : String → String
  listenAndServe : String → Option String

/-- The outcome of the operating-system calls of one handler run: the error of
`os.MkdirAll`, the error of `os.OpenFile`, and for `File.Write` the number of
bytes written before it failed together with the error. -/
structure OSFaults where
  mkdirAll : Option String
  openFile : Option String
  write : Option (Nat × String)

/-! ## Library models -/

def StatusOK : Nat := 200
def StatusFound : Nat := 302
def StatusBadRequest : Nat := 400
def StatusInternalServerError : Nat := 500

def O_RDWR : Nat := 0x2
def O_CREATE : Nat := 0x40
def O_TRUNC : Nat := 0x200

/-- One second, as a `time.Duration` in nanoseconds. -/
def Second : Nat := 1000000000

/-- The writer handed to a handler for a new request. -/
def ResponseWriter.new : ResponseWriter :=
  { status := none, header := [], body := "" }

/-- `w.WriteHeader(code)`: only the first call takes effect. -/
def ResponseWriter.WriteHeader (w : ResponseWriter) (code : Nat) : ResponseWriter :=
  match w.status with
  | some _ => w
  | none => { w with status := some code }

/-- `w.Write(b)`: writes the header with status 200 if none was written yet,
then appends to the body. -/
def ResponseWriter.Write (w : ResponseWriter) (b : String) : ResponseWriter :=
  let w1 := w.WriteHeader StatusOK
  { w1 with body := w1.body ++ b }

/-- `w.Header().Set(k, v)`. -/
def ResponseWriter.SetHeader (w : ResponseWriter) (k v : String) : ResponseWriter :=
  { w with header := (w.header.filter fun kv => kv.1 ≠ k) ++ [(k, v)] }

/-- `w.Header().Del(k)`. -/
def ResponseWriter.DelHeader (w : ResponseWriter) (k : String) : ResponseWriter :=
  { w with header := w.header.filter fun kv => kv.1 ≠ k }

/-- `http.Error(w, error, code)`: plain-text headers, the status, then the
message followed by a newline. -/
def httpError (w : ResponseWriter) (error : String) (code : Nat) : ResponseWriter :=
  let w1 := w.DelHeader "Content-Length"
  let w2 := w1.SetHeader "Content-Type" "text/plain; charset=utf-8"
  let w3 := w2.SetHeader "X-Content-Type-Options" "nosniff"
  let w4 := w3.WriteHeader code
  w4.Write (error ++ "\n")

/-- `url.Values.Get(key)`: the first value of the key, or the empty string. -/
def Request.Get (r : Request) (key : String) : String :=
  match r.query key with
  | [] => ""
  | v :: _ => v

/-- `fmt.Printf` and `fmt.Println`: append to the standard output. -/
def World.print (world : World) (s : String) : World :=
  { world with stdout := world.stdout ++ s }

/-- `fmt.Fprintf(os.Stderr, ...)`: append to the standard error. -/
def World.eprint (world : World) (s : String) : World :=
  { world with stderr := world.stderr ++ s }

/-- `os.Exit(code)`. -/
def World.Exit (world : World) (code : Nat) : World :=
  { world with exit := some code }

/-- Replace the entry of one file. -/
def FileSystem.setFile (fs : FileSystem) (name : String) (e : FileEntry) : FileSystem :=
  { fs with files := fun p => if p = name then some e else fs.files p }

/-- `os.MkdirAll(path, perm)`, returning its error: on success the directory
exists; an existing directory keeps its permission bits.  (Ancestors are not
tracked.) -/
def osMkdirAll (os : OSFaults) (world : World) (path : String) (perm : Nat) :
    Option String × World :=
  let world1 := { world with fsCalls := world.fsCalls ++ [FsCall.mkdirAll path perm] }
  match os.mkdirAll with
  | some e => (some e, world1)
  | none =>
    match world1.fs.dirs path with
    | some _ => (none, world1)
    | none =>
      (none, { world1 with
               fs := { world1.fs with
                       dirs := fun p => if p = path then some perm else world1.fs.dirs p } })

/-- `os.OpenFile(name, flag, perm)`: an existing file is emptied when `O_TRUNC`
is set; a missing file is created empty with `perm` when `O_CREATE` is set.
The handle returned on success is the file name, positioned at offset 0. -/
def osOpenFile (os : OSFaults) (world : World) (name : String) (flag perm : Nat) :
    Except String String × World :=
  let world1 := { world with fsCalls := world.fsCalls ++ [FsCall.openFile name flag perm] }
  match os.openFile with
  | some e => (.error e, world1)
  | none =>
    match world1.fs.files name with
    | some f =>
      if flag &&& O_TRUNC ≠ 0 then
        (.ok name, { world1 with fs := world1.fs.setFile name { f with content := "" } })
      else (.ok name, world1)
    | none =>
      if flag &&& O_CREATE ≠ 0 then
        (.ok name, { world1 with fs := world1.fs.setFile name { content := "", perm := perm } })
      else (.error ("open " ++ name ++ ": no such file or directory"), world1)

/-- Overwrite `old` from offset 0 with `b`. -/
def overwrite (old b : String) : String :=
  ⟨b.data ++ old.data.drop b.data.length⟩

/-- `f.Write(b)` on a handle at offset 0: on success all of `b` is written; on
failure only the first `n` characters are.  Returns the error, if any. -/
def fileWrite (os : OSFaults) (world : World) (f : String) (b : String) :
    Option String × World :=
  let world1 := { world with fsCalls := world.fsCalls ++ [FsCall.write f b] }
  let written : String := match os.write with
    | none => b
    | some (n, _) => ⟨b.data.take n⟩
  let err : Option String := os.write.map fun ne => ne.2
  match world1.fs.files f with
  | none => (err, world1)
  | some e =>
    (err, { world1 with fs := world1.fs.setFile f { e with content := overwrite e.content written } })

/-- `f.Close()`. -/
def fileClose (world : World) (f : String) : World :=
  { world with fsCalls := world.fsCalls ++ [FsCall.close f] }

/-- Start the goroutine `time.Sleep(d); os.Exit(code)`. -/
def World.go (world : World) (d code : Nat) : World :=
  { world with timers := world.timers ++ [{ delay := d, code := code }] }

/-! ## `randStringRunes` -/

/-- The package variable `letterRunes`. -/
def letterRunes : List Char :=
  "abcdefghijklmnopqrstuvwxyzABCDEFGHIJKLMNOPQRSTUVWXYZ".data

/-- A source of random numbers: `intn n s` is the draw of `rand.Intn(n)` in
generator state `s`, with the next state. -/
structure RandSource (σ : Type) where
  intn : Nat → σ → Nat × σ

/-- The loop `for i := range b { b[i] = letterRunes[rand.Intn(len(letterRunes))] }`
from index `i` with `k` iterations left; `none` is an index-out-of-range panic. -/
def randStringRunes.loop {σ : Type} (rnd : RandSource σ) :
    Nat → Nat → List Char → σ → Option (List Char × σ)
  | 0, _, b, s => some (b, s)
  | k + 1, i, b, s =>
    let d := rnd.intn letterRunes.length s
    match letterRunes[d.1]? with
    | none => none
    | some c =>
      if i < b.length then randStringRunes.loop rnd k (i + 1) (b.set i c) d.2
      else none

/-- The Go function `randStringRunes(n)`: `none` is a panic (`make` with a
negative length, or an index out of range). -/
def randStringRunes {σ : Type} (rnd : RandSource σ) (n : Int) (s : σ) :
    Option (String × σ) :=
  if n < 0 then none
  else
    let b : List Char := List.replicate n.toNat (Char.ofNat 0)
    match randStringRunes.loop rnd b.length 0 b s with
    | none => none
    | some (b1, s1) => some (String.mk b1, s1)

/-! ## The handlers registered by `main` -/

/-- The first chunk written on success (a raw string literal in the source). -/
def tokenPageHead : String :=
  "<html><head><style>\npre \x7b\n overflow-x: auto; /* Use horizontal scroller if needed; for Firefox 2, not needed in Firefox 3 */\n white-space: pre-wrap; /* css-3 */\n white-space: -moz-pre-wrap !important; /* Mozilla, since 1999 */\n white-space: -pre-wrap; /* Opera 4-6 */\n white-space: -o-pre-wrap; /* Opera 7 */\n /* width: 99%; */\n word-wrap: break-word; /* Internet Explorer 5.5+ */\n\x7d</style></head>\n\t\t"

/-- The handler of the pattern "/". -/
def rootHandler (lib : Lib) (config : OAuth2Config) (state : String)
    (w : ResponseWriter) (r : Request) (world : World) : ResponseWriter × World :=
  (lib.redirect w r (lib.authCodeURL config state) StatusFound, world)

/-- The handler of the pattern "/auth/callback". -/
def callbackHandler (lib : Lib) (os : OSFaults) (cfg : cliConfig) (config : OAuth2Config)
    (verifier : Verifier) (state : String)
    (w : ResponseWriter) (r : Request) (world : World) : ResponseWriter × World :=
  if r.Get "state" ≠ state then
    let world1 := world.print
      ("my state[" ++ state ++ "] != returned state[" ++ r.Get "state" ++ "]. URL: "
        ++ r.url ++ "\n")
    (httpError w "state did not match" StatusBadRequest, world1)
  else
    let world1 := { world with exchangeCalls := world.exchangeCalls ++ [r.Get "code"] }
    match lib.exchange config (r.Get "code") with
    | .error err =>
      (httpError w ("Failed to exchange token: " ++ err) StatusInternalServerError, world1)
    | .ok oauth2Token =>
      match oauth2Token.extra "id_token" with
      | .str rawIDToken =>
        let world2 := { world1 with verifyCalls := world1.verifyCalls ++ [rawIDToken] }
        match verifier rawIDToken with
        | .error err =>
          (httpError w ("Failed to verify ID Token: " ++ err) StatusInternalServerError, world2)
        | .ok _ =>
          let w1 := w.Write tokenPageHead
          let w2 := w1.Write "<body><h1>Token</h1><br />"
          let w3 := w2.Write ("<pre>" ++ rawIDToken ++ "</pre>")
          let w4 := w3.Write "<br /><a href=\"/\">Get another token</a>"
          let w5 := w4.Write "</body></head>"
          if cfg.daemon then (w5, world2)
          else if cfg.saveToken then
            match osMkdirAll os world2 (lib.pathDir cfg.tokenFile) 0o700 with
            | (some err, world3) =>
              (w5, (world3.eprint
                ("Failed to create diretory for token file: " ++ err)).Exit 1)
            | (none, world3) =>
              match osOpenFile os world3 cfg.tokenFile (O_TRUNC ||| O_CREATE ||| O_RDWR) 0o600 with
              | (.error err, world4) =>
                (w5, (world4.eprint ("Failed to create token file: " ++ err)).Exit 1)
              | (.ok f, world4) =>
                let world5 := (fileWrite os world4 f rawIDToken).2
                let world6 := world5.print ("Token saved on to " ++ cfg.tokenFile ++ "\n")
                let world7 := fileClose world6 f
                let world8 := world7.go Second 0
                (w5, world8.print "Done\n")
          else (w5, world2.print "Done\n")
      | _ =>
        (httpError w "No id_token field in oauth2 token." StatusInternalServerError, world1)

/-! ## `main` -/

/-- A handler as registered with `http.HandleFunc`; the first argument fixes
the outcome of the operating-system calls of the run. -/
abbrev Handler := OSFaults → ResponseWriter → Request → World → ResponseWriter × World

/-- What `main` has set up when it blocks in the listener or ends: the world,
whether it panicked, the state token, the registered handlers in order, and
the address passed to `http.ListenAndServe`. -/
structure Process where
  world : World
  panicked : Bool
  state : Option String
  handlers : List (String × Handler)
  listening : Option String

/-- A process that ended in `world` before anything was set up. -/
def Process.ended (world : World) : Process :=
  { world := world, panicked := false, state := none, handlers := [], listening := none }

/-- `log.Printf` and `log.Print`: a line on the standard error (the time stamp
is left out). -/
def logPrint (world : World) (s : String) : World :=
  world.eprint (s ++ "\n")

/-- `log.Fatal(v)`: `log.Print(v)` followed by `os.Exit(1)`. -/
def logFatal (world : World) (s : String) : World :=
  (logPrint world s).Exit 1

/-- The Go function `main`, run with the configuration `cfg` left by `init`. -/
def main {σ : Type} (lib : Lib) (rnd : RandSource σ) (seed : σ) (cfg : cliConfig)
    (world : World) : Process :=
  if cfg.issuer.utf8ByteSize = 0 then
    Process.ended ((world.print "Must provide an issuer\n").Exit 1)
  else if cfg.clientID.utf8ByteSize = 0 then
    Process.ended ((world.print "Must provide a client id\n").Exit 1)
  else if cfg.clientSecret.utf8ByteSize = 0 then
    Process.ended ((world.print "Must provide a client secret\n").Exit 1)
  else if cfg.daemon && cfg.saveToken then
    Process.ended ((world.print "Cannot set both daemon and saveToken\n").Exit 1)
  else
    let world1 := { world with providerCalls := world.providerCalls ++ [cfg.issuer] }
    match lib.newProvider cfg.issuer with
    | .error err => Process.ended (logFatal world1 err)
    | .ok provider =>
      let verifier := provider.verifier cfg.clientID
      let config : OAuth2Config :=
        { clientID := cfg.clientID
          clientSecret := cfg.clientSecret
          endpoint := provider.endpoint
          redirectURL := "http://127.0.0.1:" ++ cfg.port ++ "/auth/callback"
          scopes := ["openid", "profile", "email"] }
      match randStringRunes rnd 16 seed with
      | none => { Process.ended world1 with panicked := true }
      | some (state, _) =>
        let handlers : List (String × Handler) :=
          [("/", fun _ => rootHandler lib config state),
           ("/auth/callback", fun os => callbackHandler lib os cfg config verifier state)]
        let world2 := logPrint world1 ("listening on http://127.0.0.1:" ++ cfg.port ++ "/")
        let addr := "127.0.0.1:" ++ cfg.port
        match lib.listenAndServe addr with
        | none =>
          { world := world2, panicked := false, state := some state,
            handlers := handlers, listening := some addr }
        | some err =>
          { world := logFatal world2 err, panicked := false, state := some state,
            handlers := handlers, listening := some addr }

/-! ## Vocabulary of the statements -/

/-- The string `sub` occurs in `s` as a contiguous run of characters. -/
def Contains (s sub : String) : Prop :=
  sub.data <:+: s.data

instance (s sub : String) : Decidable (Contains s sub) :=
  inferInstanceAs (Decidable (sub.data <:+: s.data))

/-- A successful flow on request `r` with raw identity token `t`: the state
matches, the exchange returns a token, its `id_token` extra field is the
string `t`, and the verifier accepts `t`. -/
def Successful (lib : Lib) (config : OAuth2Config) (verifier : Verifier) (state : String)
    (r : Request) (t : String) : Prop :=
  r.Get "state" = state ∧
    ∃ tok, lib.exchange config (r.Get "code") = .ok tok ∧ tok.extra "id_token" = .str t ∧
      ∃ idt, verifier t = .ok idt

/-- The page written on success for the raw identity token `t`. -/
def tokenPage (t : String) : String :=
  tokenPageHead ++ "<body><h1>Token</h1><br />" ++ ("<pre>" ++ t ++ "</pre>")
    ++ "<br /><a href=\"/\">Get another token</a>" ++ "</body></head>"

/-- The argument check of `main` passes: issuer, client id and client secret
are non-empty, and daemon and save-token are not both set. -/
def ValidConfig (cfg : cliConfig) : Prop :=
  cfg.issuer ≠ "" ∧ cfg.clientID ≠ "" ∧ cfg.clientSecret ≠ "" ∧
    ¬ (cfg.daemon = true ∧ cfg.saveToken = true)

instance (cfg : cliConfig) : Decidable (ValidConfig cfg) :=
  inferInstanceAs (Decidable (_ ∧ _ ∧ _ ∧ _))

/-- The `oauth2.Config` that `main` builds from `cfg` and the provider. -/
def mainConfig (cfg : cliConfig) (provider : Provider) : OAuth2Config :=
  { clientID := cfg.clientID
    clientSecret := cfg.clientSecret
    endpoint := provider.endpoint
    redirectURL := "http://127.0.0.1:" ++ cfg.port ++ "/auth/callback"
    scopes := ["openid", "profile", "email"] }

/-- The world once the handler has called the exchange with `code` and the
verifier with `t`. -/
def afterVerify (world : World) (code t : String) : World :=
  { world with exchangeCalls := world.exchangeCalls ++ [code],
               verifyCalls := world.verifyCalls ++ [t] }

/-- The calls to the `os` package made between two worlds. -/
def newFsCalls (before after : World) : List FsCall :=
  after.fsCalls.drop before.fsCalls.length

/-- The timers started between two worlds. -/
def newTimers (before after : World) : List Timer :=
  after.timers.drop before.timers.length

/-- Between the two worlds the token `t` was written to `file`: the write was
issued and the file now holds exactly `t`. -/
def TokenFileWritten (before after : World) (file t : String) : Prop :=
  FsCall.write file t ∈ newFsCalls before after ∧
    (after.fs.files file).map FileEntry.content = some t

instance (before after : World) (file t : String) :
    Decidable (TokenFileWritten before after file t) :=
  inferInstanceAs (Decidable (_ ∧ _))

/-! ## Sample data -/

/-- A linear congruential generator; `rand.Intn(n)` is the state modulo `n`. -/
def lcg : RandSource Nat :=
  { intn := fun n s => (s % n, (s * 1103515245 + 12345) % 2147483648) }

/-- An empty file system. -/
def emptyFS : FileSystem :=
  { files := fun _ => none, dirs := fun _ => none }

/-- A world in which nothing has happened yet. -/
def world0 : World :=
  { fs := emptyFS, fsCalls := [], stdout := "", stderr := "", exit := none, timers := [],
    providerCalls := [], exchangeCalls := [], verifyCalls := [] }

/-- A provider whose verifier accepts exactly the tokens starting with `e`. -/
def sampleVerifier : Verifier := fun raw =>
  match raw.data with
  | 'e' :: _ => .ok { subject := "alice" }
  | _ => .error "oidc: malformed jwt"

def sampleEndpoint : Endpoint :=
  { authURL := "https://example.test/authorize", tokenURL := "https://example.test/token" }

/-- A library whose exchange answers the code `good` with the identity token
`eyJ.e30.sig`, the code `markup` with an identity token full of markup
characters, the code `bad` with the identity token `F`, the code `none`
without identity token, and fails otherwise. -/
def sampleLib : Lib :=
  { newProvider := fun issuer =>
      if issuer = "https://example.test" then
        .ok { endpoint := sampleEndpoint, verifier := fun _ => sampleVerifier }
      else .error "404 Not Found"
    exchange := fun _ code =>
      if code = "good" then
        .ok { accessToken := "at", extra := fun k => if k = "id_token" then .str "eyJ.e30.sig" else .nil }
      else if code = "markup" then
        .ok { accessToken := "at", extra := fun k => if k = "id_token" then .str "e<b>&</pre>\"" else .nil }
      else if code = "bad" then
        .ok { accessToken := "at", extra := fun k => if k = "id_token" then .str "F" else .nil }
      else if code = "none" then
        .ok { accessToken := "at", extra := fun _ => .nil }
      else .error "oauth2: cannot fetch token"
    authCodeURL := fun c state =>
      c.endpoint.authURL ++ "?client_id=" ++ c.clientID ++ "&state=" ++ state
    redirect := fun w _ url code =>
      { w with status := some code, header := w.header ++ [("Location", url)] }
    pathDir := fun _ => "/home/u/.oidc"
    listenAndServe := fun _ => none }

/-- The sample library with an exchange that answers every code with the
identity token `x.y.z`. -/
def otherLib : Lib :=
  { newProvider := sampleLib.newProvider
    exchange := fun _ _ => Except.ok { accessToken := "at", extra := fun _ => Iface.str "x.y.z" }
    authCodeURL := sampleLib.authCodeURL
    redirect := sampleLib.redirect
    pathDir := sampleLib.pathDir
    listenAndServe := sampleLib.listenAndServe }

def sampleConfig : OAuth2Config :=
  { clientID := "abc", clientSecret := "s3cret", endpoint := sampleEndpoint,
    redirectURL := "http://127.0.0.1:5556/auth/callback",
    scopes := ["openid", "profile", "email"] }

/-- A configuration in the default (display) mode. -/
def sampleCfg : cliConfig :=
  { clientID := "abc", clientSecret := "s3cret", issuer := "https://example.test",
    port := "5556", saveToken := false, daemon := false, tokenFile := "/home/u/.oidc/token" }

/-- No operating-system call fails. -/
def noFaults : OSFaults :=
  { mkdirAll := none, openFile := none, write := none }

/-- The sample configuration in save mode. -/
def saveCfg : cliConfig :=
  { clientID := "abc", clientSecret := "s3cret", issuer := "https://example.test",
    port := "5556", saveToken := true, daemon := false, tokenFile := "/home/u/.oidc/token" }

/-- The sample configuration in daemon mode. -/
def daemonCfg : cliConfig :=
  { clientID := "abc", clientSecret := "s3cret", issuer := "https://example.test",
    port := "5556", saveToken := false, daemon := true, tokenFile := "/home/u/.oidc/token" }

/-- The directory of the token file cannot be created. -/
def mkdirFails : OSFaults :=
  { mkdirAll := some "mkdir /home/u/.oidc: permission denied", openFile := none, write := none }

/-- The token file cannot be opened. -/
def openFails : OSFaults :=
  { mkdirAll := none, openFile := some "open /home/u/.oidc/token: permission denied",
    write := none }

/-- The write to the token file fails before any byte is written. -/
def writeFails : OSFaults :=
  { mkdirAll := none, openFile := none,
    write := some (0, "write /home/u/.oidc/token: no space left on device") }

/-- A world whose token file already holds a longer, stale token. -/
def staleWorld : World :=
  { fs := { files := fun p =>
              if p = "/home/u/.oidc/token" then
                some { content := "stale.token.longer.than.the.new.one", perm := 0o644 }
              else none
            dirs := fun p => if p = "/home/u/.oidc" then some 0o755 else none }
    fsCalls := [], stdout := "", stderr := "", exit := none, timers := [],
    providerCalls := [], exchangeCalls := [], verifyCalls := [] }

/-- A callback request with the given `state` and `code` parameters. -/
def callbackRequest (state code : List String) : Request :=
  { method := "GET", url := "/auth/callback",
    query := fun k => if k = "state" then state else if k = "code" then code else [] }


/-! ## `randStringRunes` -/

theorem letterRunes_length : letterRunes.length = 52 := by decide

theorem randStringRunes_loop_spec {σ : Type} (rnd : RandSource σ)
    (hr : ∀ s, (rnd.intn 52 s).1 < 52) :
    ∀ (k i : Nat) (b : List Char) (s : σ), i + k = b.length →
      ∃ b1 s1, randStringRunes.loop rnd k i b s = some (b1, s1) ∧ b1.length = b.length ∧
        (∀ j, j < i → b1[j]? = b[j]?) ∧
        (∀ j, i ≤ j → j < b.length → ∃ c, c ∈ letterRunes ∧ b1[j]? = some c) := by
  intro k
  induction k with
  | zero =>
    intro i b s hik
    refine ⟨b, s, rfl, rfl, fun _ _ => rfl, ?_⟩
    intro j hij hj
    omega
  | succ k ih =>
    intro i b s hik
    have hd : (rnd.intn letterRunes.length s).1 < letterRunes.length := by
      rw [letterRunes_length]; exact hr s
    have hib : i < b.length := by omega
    obtain ⟨b1, s1, hloop, hlen, hlow, hhigh⟩ :=
      ih (i + 1) (b.set i (letterRunes.get ⟨_, hd⟩)) (rnd.intn letterRunes.length s).2
        (by rw [List.length_set]; omega)
    refine ⟨b1, s1, ?_, ?_, ?_, ?_⟩
    · simp only [randStringRunes.loop, List.getElem?_eq_getElem hd, hib, if_true]
      exact hloop
    · rw [hlen, List.length_set]
    · intro j hj
      rw [hlow j (by omega), List.getElem?_set_ne (by omega)]
    · intro j hij hj
      by_cases hji : j = i
      · subst hji
        refine ⟨letterRunes.get ⟨_, hd⟩, List.get_mem _ _ _, ?_⟩
        rw [hlow j (by omega), List.getElem?_set_self hib]
      · exact hhigh j (by omega) (by rw [List.length_set]; exact hj)

theorem randStringRunes_ok {σ : Type} (rnd : RandSource σ) (n : Int) (seed : σ)
    (hn : 0 ≤ n) (hr : ∀ s, (rnd.intn 52 s).1 < 52) :
    ∃ str s1, randStringRunes rnd n seed = some (str, s1) ∧ (str.length : Int) = n ∧
      ∀ c ∈ str.data, c ∈ letterRunes := by
  obtain ⟨b1, s1, hloop, hlen, -, hhigh⟩ :=
    randStringRunes_loop_spec rnd hr (List.replicate n.toNat (Char.ofNat 0)).length 0
      (List.replicate n.toNat (Char.ofNat 0)) seed (by simp)
  refine ⟨String.mk b1, s1, ?_, ?_, ?_⟩
  · simp only [randStringRunes, not_lt.mpr hn, if_false, hloop]
  · show ((b1.length : Nat) : Int) = n
    rw [hlen, List.length_replicate]
    exact Int.toNat_of_nonneg hn
  · intro c hc
    obtain ⟨j, hj⟩ := List.mem_iff_getElem?.mp hc
    have hjlt : j < b1.length := by
      obtain ⟨h, -⟩ := List.getElem?_eq_some.mp hj
      exact h
    obtain ⟨c1, hc1, hget⟩ := hhigh j (Nat.zero_le _) (by rw [← hlen]; exact hjlt)
    rw [hj] at hget
    cases hget
    exact hc1

/-! ## `main` -/

theorem utf8ByteSize_eq_zero (s : String) : s.utf8ByteSize = 0 ↔ s = "" := by
  constructor
  · intro h
    cases s with
    | mk l =>
      cases l with
      | nil => rfl
      | cons c cs =>
        exfalso
        simp only [String.utf8ByteSize, String.utf8ByteSize.go] at h
        have := Char.utf8Size_pos c
        omega
  · intro h
    subst h
    rfl

theorem main_of_valid {σ : Type} (lib : Lib) (rnd : RandSource σ) (seed : σ)
    (cfg : cliConfig) (world : World) (provider : Provider) (state : String) (s1 : σ)
    (hv : ValidConfig cfg) (hp : lib.newProvider cfg.issuer = .ok provider)
    (hst : randStringRunes rnd 16 seed = some (state, s1)) :
    (main lib rnd seed cfg world).state = some state ∧
      (main lib rnd seed cfg world).panicked = false ∧
      (main lib rnd seed cfg world).handlers =
        [("/", fun _ => rootHandler lib (mainConfig cfg provider) state),
         ("/auth/callback", fun os => callbackHandler lib os cfg (mainConfig cfg provider)
            (provider.verifier cfg.clientID) state)] ∧
      (main lib rnd seed cfg world).listening = some ("127.0.0.1:" ++ cfg.port) ∧
      (main lib rnd seed cfg world).world.providerCalls
        = world.providerCalls ++ [cfg.issuer] := by
  obtain ⟨h1, h2, h3, h4⟩ := hv
  have h4b : (cfg.daemon && cfg.saveToken) = false := by
    cases hd : cfg.daemon <;> cases hsv : cfg.saveToken <;> simp_all
  simp only [main, utf8ByteSize_eq_zero, h1, h2, h3, h4b, if_false, hp, hst, mainConfig,
    Bool.false_eq_true]
  cases lib.listenAndServe ("127.0.0.1:" ++ cfg.port) <;>
    simp [logFatal, logPrint, World.eprint, World.Exit]

theorem main_of_invalid {σ : Type} (lib : Lib) (rnd : RandSource σ) (seed : σ)
    (cfg : cliConfig) (world : World) (hv : ¬ ValidConfig cfg) :
    ∃ msg, main lib rnd seed cfg world = Process.ended ((world.print msg).Exit 1) ∧
      (cfg.issuer = "" → msg = "Must provide an issuer\n") ∧
      (cfg.issuer ≠ "" → cfg.clientID = "" → msg = "Must provide a client id\n") ∧
      (cfg.issuer ≠ "" → cfg.clientID ≠ "" → cfg.clientSecret = "" →
        msg = "Must provide a client secret\n") ∧
      (cfg.issuer ≠ "" → cfg.clientID ≠ "" → cfg.clientSecret ≠ "" →
        msg = "Cannot set both daemon and saveToken\n") := by
  by_cases h1 : cfg.issuer = ""
  · exact ⟨_, by simp [main, utf8ByteSize_eq_zero, h1], fun _ => rfl,
      fun h => absurd h1 h, fun h => absurd h1 h, fun h => absurd h1 h⟩
  · by_cases h2 : cfg.clientID = ""
    · exact ⟨_, by simp [main, utf8ByteSize_eq_zero, h1, h2], fun h => absurd h h1,
        fun _ _ => rfl, fun _ h => absurd h2 h, fun _ h => absurd h2 h⟩
    · by_cases h3 : cfg.clientSecret = ""
      · exact ⟨_, by simp [main, utf8ByteSize_eq_zero, h1, h2, h3], fun h => absurd h h1,
          fun _ h => absurd h h2, fun _ _ _ => rfl, fun _ _ h => absurd h3 h⟩
      · have h4 : cfg.daemon = true ∧ cfg.saveToken = true := by
          by_contra h4
          exact hv ⟨h1, h2, h3, h4⟩
        exact ⟨_, by simp [main, utf8ByteSize_eq_zero, h1, h2, h3, h4.1, h4.2],
          fun h => absurd h h1, fun _ h => absurd h h2, fun _ _ h => absurd h h3,
          fun _ _ _ => rfl⟩


/-! ## Operating-system calls -/

theorem osMkdirAll_fst (os : OSFaults) (world : World) (path : String) (perm : Nat) :
    (osMkdirAll os world path perm).1 = os.mkdirAll := by
  unfold osMkdirAll
  cases os.mkdirAll with
  | some e => rfl
  | none =>
    simp only
    cases world.fs.dirs path <;> rfl

theorem osMkdirAll_snd (os : OSFaults) (world : World) (path : String) (perm : Nat) :
    (osMkdirAll os world path perm).2.fsCalls = world.fsCalls ++ [FsCall.mkdirAll path perm] ∧
      (osMkdirAll os world path perm).2.fs.files = world.fs.files ∧
      (osMkdirAll os world path perm).2.stdout = world.stdout ∧
      (osMkdirAll os world path perm).2.stderr = world.stderr ∧
      (osMkdirAll os world path perm).2.exit = world.exit ∧
      (osMkdirAll os world path perm).2.timers = world.timers ∧
      (osMkdirAll os world path perm).2.exchangeCalls = world.exchangeCalls ∧
      (osMkdirAll os world path perm).2.verifyCalls = world.verifyCalls := by
  unfold osMkdirAll
  cases os.mkdirAll with
  | some e => simp
  | none =>
    simp only
    cases world.fs.dirs path <;> simp

theorem open_flags : (O_TRUNC ||| O_CREATE ||| O_RDWR) &&& O_TRUNC ≠ 0 ∧
    (O_TRUNC ||| O_CREATE ||| O_RDWR) &&& O_CREATE ≠ 0 := by decide

theorem osOpenFile_fst_of_error (os : OSFaults) (world : World) (name : String)
    (flag perm : Nat) (e : String) (h : os.openFile = some e) :
    (osOpenFile os world name flag perm).1 = .error e := by
  simp [osOpenFile, h]

theorem osOpenFile_fst_of_ok (os : OSFaults) (world : World) (name : String) (perm : Nat)
    (h : os.openFile = none) :
    (osOpenFile os world name (O_TRUNC ||| O_CREATE ||| O_RDWR) perm).1 = .ok name := by
  unfold osOpenFile
  simp only [h, open_flags.1, open_flags.2, ne_eq, not_false_eq_true, if_true]
  cases world.fs.files name <;> rfl

theorem osOpenFile_snd (os : OSFaults) (world : World) (name : String) (flag perm : Nat) :
    (osOpenFile os world name flag perm).2.fsCalls
        = world.fsCalls ++ [FsCall.openFile name flag perm] ∧
      (osOpenFile os world name flag perm).2.stdout = world.stdout ∧
      (osOpenFile os world name flag perm).2.stderr = world.stderr ∧
      (osOpenFile os world name flag perm).2.exit = world.exit ∧
      (osOpenFile os world name flag perm).2.timers = world.timers ∧
      (osOpenFile os world name flag perm).2.exchangeCalls = world.exchangeCalls ∧
      (osOpenFile os world name flag perm).2.verifyCalls = world.verifyCalls := by
  unfold osOpenFile
  cases os.openFile with
  | some e => simp
  | none =>
    simp only
    cases world.fs.files name <;> simp only <;> split <;> simp

theorem osOpenFile_file (os : OSFaults) (world : World) (name : String) (perm : Nat)
    (h : os.openFile = none) :
    ∃ e, (osOpenFile os world name (O_TRUNC ||| O_CREATE ||| O_RDWR) perm).2.fs.files name
        = some e ∧ e.content = "" ∧ (world.fs.files name = none → e.perm = perm) := by
  unfold osOpenFile
  simp only [h, open_flags.1, open_flags.2, ne_eq, not_false_eq_true, if_true]
  cases hf : world.fs.files name with
  | none =>
    exact ⟨{ content := "", perm := perm }, by simp [FileSystem.setFile], rfl, fun _ => rfl⟩
  | some f =>
    exact ⟨{ f with content := "" }, by simp [FileSystem.setFile], rfl, fun hn => by cases hn⟩

theorem osOpenFile_fs_of_error (os : OSFaults) (world : World) (name : String)
    (flag perm : Nat) (e : String) (h : os.openFile = some e) :
    (osOpenFile os world name flag perm).2.fs = world.fs := by
  simp [osOpenFile, h]

theorem overwrite_empty (b : String) : overwrite "" b = b := by
  apply String.ext
  simp [overwrite]

theorem fileWrite_snd (os : OSFaults) (world : World) (f b : String) :
    (fileWrite os world f b).2.fsCalls = world.fsCalls ++ [FsCall.write f b] ∧
      (fileWrite os world f b).2.stdout = world.stdout ∧
      (fileWrite os world f b).2.stderr = world.stderr ∧
      (fileWrite os world f b).2.exit = world.exit ∧
      (fileWrite os world f b).2.timers = world.timers ∧
      (fileWrite os world f b).2.exchangeCalls = world.exchangeCalls ∧
      (fileWrite os world f b).2.verifyCalls = world.verifyCalls := by
  unfold fileWrite
  cases hf : world.fs.files f <;> simp [hf]

theorem fileWrite_file (os : OSFaults) (world : World) (f b : String) (e : FileEntry)
    (hf : world.fs.files f = some e) (he : e.content = "") :
    (fileWrite os world f b).2.fs.files f =
      some { content := (match os.write with
                | none => b
                | some (n, _) => String.mk (b.data.take n)),
             perm := e.perm } := by
  unfold fileWrite
  simp only [hf, FileSystem.setFile, he, overwrite_empty, if_true]

/-! ## The response of the callback handler, case by case -/

theorem httpError_new (msg : String) (code : Nat) :
    httpError ResponseWriter.new msg code =
      { status := some code,
        header := [("Content-Type", "text/plain; charset=utf-8"),
          ("X-Content-Type-Options", "nosniff")],
        body := "" ++ (msg ++ "\n") } := by
  simp [httpError, ResponseWriter.Write, ResponseWriter.WriteHeader,
    ResponseWriter.SetHeader, ResponseWriter.DelHeader, ResponseWriter.new]

theorem string_empty_append (s : String) : "" ++ s = s := by
  apply String.ext
  simp [String.data_append]

theorem response_of_mismatch (lib : Lib) (os : OSFaults) (cfg : cliConfig)
    (config : OAuth2Config) (verifier : Verifier) (state : String) (r : Request)
    (world : World) (h : r.Get "state" ≠ state) :
    (callbackHandler lib os cfg config verifier state ResponseWriter.new r world).1 =
      httpError ResponseWriter.new "state did not match" StatusBadRequest := by
  simp [callbackHandler, h]

theorem response_of_exchange_error (lib : Lib) (os : OSFaults) (cfg : cliConfig)
    (config : OAuth2Config) (verifier : Verifier) (state : String) (r : Request)
    (world : World) (err : String) (h : r.Get "state" = state)
    (hx : lib.exchange config (r.Get "code") = .error err) :
    (callbackHandler lib os cfg config verifier state ResponseWriter.new r world).1 =
      httpError ResponseWriter.new ("Failed to exchange token: " ++ err)
        StatusInternalServerError := by
  simp [callbackHandler, h, hx]

theorem response_of_no_id_token (lib : Lib) (os : OSFaults) (cfg : cliConfig)
    (config : OAuth2Config) (verifier : Verifier) (state : String) (r : Request)
    (world : World) (tok : Token) (h : r.Get "state" = state)
    (hx : lib.exchange config (r.Get "code") = .ok tok)
    (he : ∀ t, tok.extra "id_token" ≠ .str t) :
    (callbackHandler lib os cfg config verifier state ResponseWriter.new r world).1 =
      httpError ResponseWriter.new "No id_token field in oauth2 token."
        StatusInternalServerError := by
  simp only [callbackHandler, h, hx]
  cases hi : tok.extra "id_token" with
  | str t => exact absurd hi (he t)
  | nil => simp
  | num n => simp
  | bool b => simp

theorem response_of_verify_error (lib : Lib) (os : OSFaults) (cfg : cliConfig)
    (config : OAuth2Config) (verifier : Verifier) (state : String) (r : Request)
    (world : World) (tok : Token) (t err : String) (h : r.Get "state" = state)
    (hx : lib.exchange config (r.Get "code") = .ok tok)
    (he : tok.extra "id_token" = .str t) (hv : verifier t = .error err) :
    (callbackHandler lib os cfg config verifier state ResponseWriter.new r world).1 =
      httpError ResponseWriter.new ("Failed to verify ID Token: " ++ err)
        StatusInternalServerError := by
  simp [callbackHandler, h, hx, he, hv]

theorem response_of_success (lib : Lib) (os : OSFaults) (cfg : cliConfig)
    (config : OAuth2Config) (verifier : Verifier) (state : String) (r : Request)
    (world : World) (t : String) (h : Successful lib config verifier state r t) :
    (callbackHandler lib os cfg config verifier state ResponseWriter.new r world).1 =
      { status := some StatusOK, header := [], body := tokenPage t } := by
  obtain ⟨hs, tok, hx, he, idt, hv⟩ := h
  have hbody : ((((("" : String) ++ tokenPageHead) ++ "<body><h1>Token</h1><br />")
      ++ ("<pre>" ++ t ++ "</pre>")) ++ "<br /><a href=\"/\">Get another token</a>")
      ++ "</body></head>" = tokenPage t := by
    rw [string_empty_append]; rfl
  subst hs
  simp only [callbackHandler, ne_eq, not_true_eq_false, if_false, hx, he, hv,
    ResponseWriter.Write, ResponseWriter.WriteHeader, ResponseWriter.new, hbody]
  repeat' split
  all_goals rfl

theorem contains_of_data_eq (s sub : String) (a c : List Char)
    (h : s.data = a ++ sub.data ++ c) : Contains s sub :=
  ⟨a, c, h.symm⟩

theorem tokenPage_contains (t : String) : Contains (tokenPage t) ("<pre>" ++ t ++ "</pre>") := by
  apply contains_of_data_eq _ _ (tokenPageHead ++ "<body><h1>Token</h1><br />").data
    ("<br /><a href=\"/\">Get another token</a>" ++ "</body></head>").data
  simp [tokenPage, String.data_append, List.append_assoc]

/-! ## The world after a successful callback, mode by mode -/

theorem world_of_daemon (lib : Lib) (os : OSFaults) (cfg : cliConfig)
    (config : OAuth2Config) (verifier : Verifier) (state : String) (r : Request)
    (world : World) (t : String) (h : Successful lib config verifier state r t)
    (hd : cfg.daemon = true) :
    (callbackHandler lib os cfg config verifier state ResponseWriter.new r world).2 =
      afterVerify world (r.Get "code") t := by
  obtain ⟨hs, tok, hx, he, idt, hv⟩ := h
  subst hs
  simp [callbackHandler, hx, he, hv, hd, afterVerify]

theorem world_of_display (lib : Lib) (os : OSFaults) (cfg : cliConfig)
    (config : OAuth2Config) (verifier : Verifier) (state : String) (r : Request)
    (world : World) (t : String) (h : Successful lib config verifier state r t)
    (hd : cfg.daemon = false) (hsv : cfg.saveToken = false) :
    (callbackHandler lib os cfg config verifier state ResponseWriter.new r world).2 =
      (afterVerify world (r.Get "code") t).print "Done\n" := by
  obtain ⟨hs, tok, hx, he, idt, hv⟩ := h
  subst hs
  simp [callbackHandler, hx, he, hv, hd, hsv, afterVerify]

theorem world_of_mkdir_error (lib : Lib) (os : OSFaults) (cfg : cliConfig)
    (config : OAuth2Config) (verifier : Verifier) (state : String) (r : Request)
    (world : World) (t err : String) (h : Successful lib config verifier state r t)
    (hd : cfg.daemon = false) (hsv : cfg.saveToken = true) (hm : os.mkdirAll = some err) :
    (callbackHandler lib os cfg config verifier state ResponseWriter.new r world).2 =
      (((osMkdirAll os (afterVerify world (r.Get "code") t) (lib.pathDir cfg.tokenFile)
          0o700).2.eprint ("Failed to create diretory for token file: " ++ err)).Exit 1) := by
  obtain ⟨hs, tok, hx, he, idt, hv⟩ := h
  subst hs
  have hmk : osMkdirAll os (afterVerify world (r.Get "code") t) (lib.pathDir cfg.tokenFile)
      0o700 = (some err, (osMkdirAll os (afterVerify world (r.Get "code") t)
        (lib.pathDir cfg.tokenFile) 0o700).2) :=
    Prod.ext (by rw [osMkdirAll_fst, hm]) rfl
  simp only [callbackHandler, ne_eq, not_true_eq_false, if_false, hx, he, hv, hd, hsv,
    if_true, Bool.false_eq_true]
  simp only [afterVerify] at hmk ⊢
  rw [hmk]

theorem world_of_open_error (lib : Lib) (os : OSFaults) (cfg : cliConfig)
    (config : OAuth2Config) (verifier : Verifier) (state : String) (r : Request)
    (world : World) (t err : String) (h : Successful lib config verifier state r t)
    (hd : cfg.daemon = false) (hsv : cfg.saveToken = true) (hm : os.mkdirAll = none)
    (ho : os.openFile = some err) :
    (callbackHandler lib os cfg config verifier state ResponseWriter.new r world).2 =
      (((osOpenFile os
          (osMkdirAll os (afterVerify world (r.Get "code") t) (lib.pathDir cfg.tokenFile)
            0o700).2
          cfg.tokenFile (O_TRUNC ||| O_CREATE ||| O_RDWR) 0o600).2.eprint
        ("Failed to create token file: " ++ err)).Exit 1) := by
  obtain ⟨hs, tok, hx, he, idt, hv⟩ := h
  subst hs
  have hmk : osMkdirAll os (afterVerify world (r.Get "code") t) (lib.pathDir cfg.tokenFile)
      0o700 = (none, (osMkdirAll os (afterVerify world (r.Get "code") t)
        (lib.pathDir cfg.tokenFile) 0o700).2) :=
    Prod.ext (by rw [osMkdirAll_fst, hm]) rfl
  have hop : osOpenFile os
      (osMkdirAll os (afterVerify world (r.Get "code") t) (lib.pathDir cfg.tokenFile) 0o700).2
      cfg.tokenFile (O_TRUNC ||| O_CREATE ||| O_RDWR) 0o600
      = (.error err, (osOpenFile os
          (osMkdirAll os (afterVerify world (r.Get "code") t) (lib.pathDir cfg.tokenFile)
            0o700).2
          cfg.tokenFile (O_TRUNC ||| O_CREATE ||| O_RDWR) 0o600).2) :=
    Prod.ext (by rw [osOpenFile_fst_of_error _ _ _ _ _ err ho]) rfl
  simp only [callbackHandler, ne_eq, not_true_eq_false, if_false, hx, he, hv, hd, hsv,
    if_true, Bool.false_eq_true]
  simp only [afterVerify] at hmk hop ⊢
  rw [hmk]
  simp only
  rw [hop]

theorem world_of_persist (lib : Lib) (os : OSFaults) (cfg : cliConfig)
    (config : OAuth2Config) (verifier : Verifier) (state : String) (r : Request)
    (world : World) (t : String) (h : Successful lib config verifier state r t)
    (hd : cfg.daemon = false) (hsv : cfg.saveToken = true) (hm : os.mkdirAll = none)
    (ho : os.openFile = none) :
    (callbackHandler lib os cfg config verifier state ResponseWriter.new r world).2 =
      ((fileClose
          ((fileWrite os
              (osOpenFile os
                (osMkdirAll os (afterVerify world (r.Get "code") t)
                  (lib.pathDir cfg.tokenFile) 0o700).2
                cfg.tokenFile (O_TRUNC ||| O_CREATE ||| O_RDWR) 0o600).2
              cfg.tokenFile t).2.print ("Token saved on to " ++ cfg.tokenFile ++ "\n"))
          cfg.tokenFile).go Second 0).print "Done\n" := by
  obtain ⟨hs, tok, hx, he, idt, hv⟩ := h
  subst hs
  have hmk : osMkdirAll os (afterVerify world (r.Get "code") t) (lib.pathDir cfg.tokenFile)
      0o700 = (none, (osMkdirAll os (afterVerify world (r.Get "code") t)
        (lib.pathDir cfg.tokenFile) 0o700).2) :=
    Prod.ext (by rw [osMkdirAll_fst, hm]) rfl
  have hop : osOpenFile os
      (osMkdirAll os (afterVerify world (r.Get "code") t) (lib.pathDir cfg.tokenFile) 0o700).2
      cfg.tokenFile (O_TRUNC ||| O_CREATE ||| O_RDWR) 0o600
      = (.ok cfg.tokenFile, (osOpenFile os
          (osMkdirAll os (afterVerify world (r.Get "code") t) (lib.pathDir cfg.tokenFile)
            0o700).2
          cfg.tokenFile (O_TRUNC ||| O_CREATE ||| O_RDWR) 0o600).2) :=
    Prod.ext (by rw [osOpenFile_fst_of_ok _ _ _ _ ho]) rfl
  simp only [callbackHandler, ne_eq, not_true_eq_false, if_false, hx, he, hv, hd, hsv,
    if_true, Bool.false_eq_true]
  simp only [afterVerify] at hmk hop ⊢
  rw [hmk]
  simp only
  rw [hop]

theorem persist_world_fields (lib : Lib) (os : OSFaults) (cfg : cliConfig)
    (config : OAuth2Config) (verifier : Verifier) (state : String) (r : Request)
    (world : World) (t : String) (h : Successful lib config verifier state r t)
    (hd : cfg.daemon = false) (hsv : cfg.saveToken = true) (hm : os.mkdirAll = none)
    (ho : os.openFile = none) :
    (∃ e : FileEntry,
        (callbackHandler lib os cfg config verifier state ResponseWriter.new r world).2.fs.files
          cfg.tokenFile
        = some { content := (match os.write with
                    | none => t
                    | some (n, _) => String.mk (t.data.take n)),
                 perm := e.perm } ∧
        (world.fs.files cfg.tokenFile = none → e.perm = 0o600)) ∧
      (callbackHandler lib os cfg config verifier state ResponseWriter.new r world).2.fsCalls
        = world.fsCalls ++
          [FsCall.mkdirAll (lib.pathDir cfg.tokenFile) 0o700,
           FsCall.openFile cfg.tokenFile (O_TRUNC ||| O_CREATE ||| O_RDWR) 0o600,
           FsCall.write cfg.tokenFile t, FsCall.close cfg.tokenFile] ∧
      (callbackHandler lib os cfg config verifier state ResponseWriter.new r world).2.stdout
        = world.stdout ++ ("Token saved on to " ++ cfg.tokenFile ++ "\n") ++ "Done\n" ∧
      (callbackHandler lib os cfg config verifier state ResponseWriter.new r world).2.stderr
        = world.stderr ∧
      (callbackHandler lib os cfg config verifier state ResponseWriter.new r world).2.exit
        = world.exit ∧
      (callbackHandler lib os cfg config verifier state ResponseWriter.new r world).2.timers
        = world.timers ++ [{ delay := Second, code := 0 }] := by
  rw [world_of_persist lib os cfg config verifier state r world t h hd hsv hm ho]
  have mk := osMkdirAll_snd os (afterVerify world (r.Get "code") t)
    (lib.pathDir cfg.tokenFile) 0o700
  have op := osOpenFile_snd os
    (osMkdirAll os (afterVerify world (r.Get "code") t) (lib.pathDir cfg.tokenFile) 0o700).2
    cfg.tokenFile (O_TRUNC ||| O_CREATE ||| O_RDWR) 0o600
  have wr := fileWrite_snd os
    (osOpenFile os
      (osMkdirAll os (afterVerify world (r.Get "code") t) (lib.pathDir cfg.tokenFile) 0o700).2
      cfg.tokenFile (O_TRUNC ||| O_CREATE ||| O_RDWR) 0o600).2 cfg.tokenFile t
  obtain ⟨e, hf, he, hp⟩ := osOpenFile_file os
    (osMkdirAll os (afterVerify world (r.Get "code") t) (lib.pathDir cfg.tokenFile) 0o700).2
    cfg.tokenFile 0o600 ho
  refine ⟨⟨e, ?_, ?_⟩, ?_, ?_, ?_, ?_, ?_⟩
  · simp only [World.print, World.go, fileClose]
    exact fileWrite_file os _ cfg.tokenFile t e hf he
  · intro hn
    apply hp
    rw [mk.2.1]
    exact hn
  · simp only [World.print, World.go, fileClose]
    rw [wr.1, op.1, mk.1]
    simp [afterVerify]
  · simp only [World.print, World.go, fileClose]
    rw [wr.2.1, op.2.1, mk.2.2.1]
    rfl
  · simp only [World.print, World.go, fileClose]
    rw [wr.2.2.1, op.2.2.1, mk.2.2.2.1]
    rfl
  · simp only [World.print, World.go, fileClose]
    rw [wr.2.2.2.1, op.2.2.2.1, mk.2.2.2.2.1]
    rfl
  · simp only [World.print, World.go, fileClose]
    rw [wr.2.2.2.2.1, op.2.2.2.2.1, mk.2.2.2.2.2.1]
    rfl

theorem mkdir_error_fields (lib : Lib) (os : OSFaults) (cfg : cliConfig)
    (config : OAuth2Config) (verifier : Verifier) (state : String) (r : Request)
    (world : World) (t err : String) (h : Successful lib config verifier state r t)
    (hd : cfg.daemon = false) (hsv : cfg.saveToken = true) (hm : os.mkdirAll = some err) :
    (callbackHandler lib os cfg config verifier state ResponseWriter.new r world).2.exit
        = some 1 ∧
      (callbackHandler lib os cfg config verifier state ResponseWriter.new r world).2.fsCalls
        = world.fsCalls ++ [FsCall.mkdirAll (lib.pathDir cfg.tokenFile) 0o700] ∧
      (callbackHandler lib os cfg config verifier state ResponseWriter.new r world).2.timers
        = world.timers ∧
      (callbackHandler lib os cfg config verifier state ResponseWriter.new r world).2.stdout
        = world.stdout ∧
      (callbackHandler lib os cfg config verifier state ResponseWriter.new r world).2.stderr
        = world.stderr ++ ("Failed to create diretory for token file: " ++ err) := by
  rw [world_of_mkdir_error lib os cfg config verifier state r world t err h hd hsv hm]
  have mk := osMkdirAll_snd os (afterVerify world (r.Get "code") t)
    (lib.pathDir cfg.tokenFile) 0o700
  refine ⟨rfl, ?_, ?_, ?_, ?_⟩
  · simp only [World.eprint, World.Exit]
    rw [mk.1]
    rfl
  · simp only [World.eprint, World.Exit]
    rw [mk.2.2.2.2.2.1]
    rfl
  · simp only [World.eprint, World.Exit]
    rw [mk.2.2.1]
    rfl
  · simp only [World.eprint, World.Exit]
    rw [mk.2.2.2.1]
    rfl

theorem open_error_fields (lib : Lib) (os : OSFaults) (cfg : cliConfig)
    (config : OAuth2Config) (verifier : Verifier) (state : String) (r : Request)
    (world : World) (t err : String) (h : Successful lib config verifier state r t)
    (hd : cfg.daemon = false) (hsv : cfg.saveToken = true) (hm : os.mkdirAll = none)
    (ho : os.openFile = some err) :
    (callbackHandler lib os cfg config verifier state ResponseWriter.new r world).2.exit
        = some 1 ∧
      (callbackHandler lib os cfg config verifier state ResponseWriter.new r world).2.fsCalls
        = world.fsCalls ++ [FsCall.mkdirAll (lib.pathDir cfg.tokenFile) 0o700,
            FsCall.openFile cfg.tokenFile (O_TRUNC ||| O_CREATE ||| O_RDWR) 0o600] ∧
      (callbackHandler lib os cfg config verifier state ResponseWriter.new r world).2.timers
        = world.timers ∧
      (callbackHandler lib os cfg config verifier state ResponseWriter.new r world).2.stdout
        = world.stdout ∧
      (callbackHandler lib os cfg config verifier state ResponseWriter.new r world).2.stderr
        = world.stderr ++ ("Failed to create token file: " ++ err) := by
  rw [world_of_open_error lib os cfg config verifier state r world t err h hd hsv hm ho]
  have mk := osMkdirAll_snd os (afterVerify world (r.Get "code") t)
    (lib.pathDir cfg.tokenFile) 0o700
  have op := osOpenFile_snd os
    (osMkdirAll os (afterVerify world (r.Get "code") t) (lib.pathDir cfg.tokenFile) 0o700).2
    cfg.tokenFile (O_TRUNC ||| O_CREATE ||| O_RDWR) 0o600
  refine ⟨rfl, ?_, ?_, ?_, ?_⟩
  · simp only [World.eprint, World.Exit]
    rw [op.1, mk.1]
    simp [afterVerify]
  · simp only [World.eprint, World.Exit]
    rw [op.2.2.2.2.1, mk.2.2.2.2.2.1]
    rfl
  · simp only [World.eprint, World.Exit]
    rw [op.2.1, mk.2.2.1]
    rfl
  · simp only [World.eprint, World.Exit]
    rw [op.2.2.1, mk.2.2.2.1]
    rfl

theorem newFsCalls_of_append (before after : World) (l : List FsCall)
    (h : after.fsCalls = before.fsCalls ++ l) : newFsCalls before after = l := by
  simp [newFsCalls, h]

theorem newTimers_of_append (before after : World) (l : List Timer)
    (h : after.timers = before.timers ++ l) : newTimers before after = l := by
  simp [newTimers, h]

theorem append_left_ne (t1 t2 : String) (h : t1 ≠ "") : t2 ≠ t1 ++ t2 := by
  intro e
  apply h
  have hl := congrArg (fun x : String => x.data.length) e
  simp only [String.data_append, List.length_append] at hl
  apply String.ext
  exact List.length_eq_zero.mp (by omega)

/-! ## Theorems about the callback handler -/

/-- C1: a callback whose `state` parameter differs from the expected state
(a missing parameter reads as the empty string) is answered with status 400;
the exchange and the verifier are not called, and the file system, the
operating-system calls, the standard error, the exit status and the timers
are left as they were; the only console output is the diagnostic line. -/
theorem callback_state_mismatch (lib : Lib) (os : OSFaults) (cfg : cliConfig)
    (config : OAuth2Config) (verifier : Verifier) (state : String) (r : Request)
    (world : World) (h : r.Get "state" ≠ state) :
    (callbackHandler lib os cfg config verifier state ResponseWriter.new r world).1.status
        = some 400 ∧
      (callbackHandler lib os cfg config verifier state ResponseWriter.new r world).2.exchangeCalls
        = world.exchangeCalls ∧
      (callbackHandler lib os cfg config verifier state ResponseWriter.new r world).2.verifyCalls
        = world.verifyCalls ∧
      (callbackHandler lib os cfg config verifier state ResponseWriter.new r world).2.fs
        = world.fs ∧
      (callbackHandler lib os cfg config verifier state ResponseWriter.new r world).2.fsCalls
        = world.fsCalls ∧
      (callbackHandler lib os cfg config verifier state ResponseWriter.new r world).2.stderr
        = world.stderr ∧
      (callbackHandler lib os cfg config verifier state ResponseWriter.new r world).2.exit
        = world.exit ∧
      (callbackHandler lib os cfg config verifier state ResponseWriter.new r world).2.timers
        = world.timers ∧
      (callbackHandler lib os cfg config verifier state ResponseWriter.new r world).2.stdout
        = world.stdout ++ ("my state[" ++ state ++ "] != returned state[" ++ r.Get "state"
            ++ "]. URL: " ++ r.url ++ "\n") := by
  simp [callbackHandler, h, httpError, ResponseWriter.Write, ResponseWriter.WriteHeader,
    ResponseWriter.SetHeader, ResponseWriter.DelHeader, ResponseWriter.new, World.print,
    StatusBadRequest]

/-- Witness of C1: a callback without `state` parameter, expected state
`abcdefghijklmnop`. -/
theorem callback_state_mismatch_witness :
    (callbackRequest [] ["good"]).Get "state" ≠ "abcdefghijklmnop" ∧
      (callbackHandler sampleLib noFaults sampleCfg sampleConfig sampleVerifier
          "abcdefghijklmnop" ResponseWriter.new (callbackRequest [] ["good"]) world0).1.status
        = some 400 ∧
      (callbackHandler sampleLib noFaults sampleCfg sampleConfig sampleVerifier
          "abcdefghijklmnop" ResponseWriter.new (callbackRequest [] ["good"]) world0).2.exchangeCalls
        = [] :=
  have h := callback_state_mismatch sampleLib noFaults sampleCfg sampleConfig sampleVerifier
    "abcdefghijklmnop" (callbackRequest [] ["good"]) world0 (by decide)
  ⟨by decide, h.1, h.2.1⟩

/-- C2: the callback handler answers with status 200 exactly when the state
matches, the exchange succeeds, the `id_token` extra field is a string and
the verifier accepts it, and then the body is the token page; on a state
mismatch the status is 400, and in every remaining case it is 500. -/
theorem callback_status (lib : Lib) (os : OSFaults) (cfg : cliConfig)
    (config : OAuth2Config) (verifier : Verifier) (state : String) (r : Request)
    (world : World) :
    ((callbackHandler lib os cfg config verifier state ResponseWriter.new r world).1.status
        = some 200 ↔ ∃ t, Successful lib config verifier state r t) ∧
      (∀ t, Successful lib config verifier state r t →
        (callbackHandler lib os cfg config verifier state ResponseWriter.new r world).1.body
          = tokenPage t) ∧
      (r.Get "state" ≠ state →
        (callbackHandler lib os cfg config verifier state ResponseWriter.new r world).1.status
          = some 400) ∧
      (r.Get "state" = state → (¬ ∃ t, Successful lib config verifier state r t) →
        (callbackHandler lib os cfg config verifier state ResponseWriter.new r world).1.status
          = some 500) := by
  have key : (∃ t, Successful lib config verifier state r t) ∨
      ((¬ ∃ t, Successful lib config verifier state r t) ∧
        ((r.Get "state" ≠ state ∧
          (callbackHandler lib os cfg config verifier state ResponseWriter.new r world).1.status
            = some 400) ∨
         (r.Get "state" = state ∧
          (callbackHandler lib os cfg config verifier state ResponseWriter.new r world).1.status
            = some 500))) := by
    by_cases hs : r.Get "state" = state
    · cases hx : lib.exchange config (r.Get "code") with
      | error err =>
        refine Or.inr ⟨?_, Or.inr ⟨hs, ?_⟩⟩
        · rintro ⟨t, -, tok, hx1, -⟩
          rw [hx] at hx1; cases hx1
        · rw [response_of_exchange_error lib os cfg config verifier state r world err hs hx,
            httpError_new]; rfl
      | ok tok =>
        by_cases he : ∃ t, tok.extra "id_token" = .str t
        · obtain ⟨t, he⟩ := he
          cases hv : verifier t with
          | error err =>
            refine Or.inr ⟨?_, Or.inr ⟨hs, ?_⟩⟩
            · rintro ⟨t1, -, tok1, hx1, he1, idt, hv1⟩
              rw [hx] at hx1; cases hx1
              rw [he] at he1; cases he1
              rw [hv] at hv1; cases hv1
            · rw [response_of_verify_error lib os cfg config verifier state r world tok t err
                hs hx he hv, httpError_new]; rfl
          | ok idt => exact Or.inl ⟨t, hs, tok, hx, he, idt, hv⟩
        · refine Or.inr ⟨?_, Or.inr ⟨hs, ?_⟩⟩
          · rintro ⟨t1, -, tok1, hx1, he1, -⟩
            rw [hx] at hx1; cases hx1
            exact he ⟨t1, he1⟩
          · rw [response_of_no_id_token lib os cfg config verifier state r world tok hs hx
              (fun t ht => he ⟨t, ht⟩), httpError_new]; rfl
    · refine Or.inr ⟨?_, Or.inl ⟨hs, ?_⟩⟩
      · rintro ⟨t, hs1, -⟩
        exact hs hs1
      · rw [response_of_mismatch lib os cfg config verifier state r world hs, httpError_new]; rfl
  have hok : ∀ t, Successful lib config verifier state r t →
      (callbackHandler lib os cfg config verifier state ResponseWriter.new r world).1
        = { status := some StatusOK, header := [], body := tokenPage t } :=
    fun t ht => response_of_success lib os cfg config verifier state r world t ht
  refine ⟨⟨?_, ?_⟩, ?_, ?_, ?_⟩
  · intro h200
    rcases key with h | ⟨-, ⟨-, h400⟩ | ⟨-, h500⟩⟩
    · exact h
    · rw [h400] at h200; cases h200
    · rw [h500] at h200; cases h200
  · rintro ⟨t, ht⟩
    rw [hok t ht]; rfl
  · intro t ht
    rw [hok t ht]
  · intro hs
    rcases key with ⟨t, hs1, -⟩ | ⟨-, ⟨-, h400⟩ | ⟨hs1, -⟩⟩
    · exact absurd hs1 hs
    · exact h400
    · exact absurd hs1 hs
  · intro hs hn
    rcases key with h | ⟨-, ⟨hs1, -⟩ | ⟨-, h500⟩⟩
    · exact absurd h hn
    · exact absurd hs hs1
    · exact h500

/-- C3: on a successful flow with raw identity token `t` the response body is
the token page of `t`, which contains `<pre>`, then `t` unchanged, then
`</pre>`, whatever characters `t` is made of. -/
theorem callback_success_body (lib : Lib) (os : OSFaults) (cfg : cliConfig)
    (config : OAuth2Config) (verifier : Verifier) (state : String) (r : Request)
    (world : World) (t : String) (h : Successful lib config verifier state r t) :
    (callbackHandler lib os cfg config verifier state ResponseWriter.new r world).1.body
        = tokenPage t ∧
      Contains
        (callbackHandler lib os cfg config verifier state ResponseWriter.new r world).1.body
        ("<pre>" ++ t ++ "</pre>") := by
  rw [response_of_success lib os cfg config verifier state r world t h]
  exact ⟨rfl, tokenPage_contains t⟩

/-- Witness of C3: the code `markup` is exchanged for an identity token made of
markup characters, which the sample verifier accepts. -/
theorem callback_success_body_witness :
    Successful sampleLib sampleConfig sampleVerifier "abcdefghijklmnop"
        (callbackRequest ["abcdefghijklmnop"] ["markup"]) "e<b>&</pre>\"" ∧
      Contains
        (callbackHandler sampleLib noFaults sampleCfg sampleConfig sampleVerifier
          "abcdefghijklmnop" ResponseWriter.new
          (callbackRequest ["abcdefghijklmnop"] ["markup"]) world0).1.body
        ("<pre>" ++ "e<b>&</pre>\"" ++ "</pre>") :=
  have hs : Successful sampleLib sampleConfig sampleVerifier "abcdefghijklmnop"
      (callbackRequest ["abcdefghijklmnop"] ["markup"]) "e<b>&</pre>\"" :=
    ⟨by decide, _, rfl, rfl, _, rfl⟩
  ⟨hs, (callback_success_body sampleLib noFaults sampleCfg sampleConfig sampleVerifier
    "abcdefghijklmnop" (callbackRequest ["abcdefghijklmnop"] ["markup"]) world0 _ hs).2⟩

/-- C4: when verification of the raw identity token fails with error text
`err`, the response has status 500 and its body is exactly
`Failed to verify ID Token: `, then `err`, then a newline: the handler writes
the verification error and nothing of the raw token.  The response does not
depend on the raw token: two runs that differ in the token (and in the
exchange that returned it) but yield the same error text produce the same
response.  Nothing is printed on either console stream on this path. -/
theorem verify_failure_response (lib1 lib2 : Lib) (os : OSFaults) (cfg : cliConfig)
    (config : OAuth2Config) (verifier : Verifier) (state : String) (r : Request)
    (world : World) (tok1 tok2 : Token) (t1 t2 err : String)
    (hs : r.Get "state" = state)
    (hx1 : lib1.exchange config (r.Get "code") = .ok tok1)
    (he1 : tok1.extra "id_token" = .str t1) (hv1 : verifier t1 = .error err)
    (hx2 : lib2.exchange config (r.Get "code") = .ok tok2)
    (he2 : tok2.extra "id_token" = .str t2) (hv2 : verifier t2 = .error err) :
    (callbackHandler lib1 os cfg config verifier state ResponseWriter.new r world).1.status
        = some 500 ∧
      (callbackHandler lib1 os cfg config verifier state ResponseWriter.new r world).1.body
        = "Failed to verify ID Token: " ++ err ++ "\n" ∧
      (callbackHandler lib1 os cfg config verifier state ResponseWriter.new r world).1
        = (callbackHandler lib2 os cfg config verifier state ResponseWriter.new r world).1 ∧
      (callbackHandler lib1 os cfg config verifier state ResponseWriter.new r world).2.stdout
        = world.stdout ∧
      (callbackHandler lib1 os cfg config verifier state ResponseWriter.new r world).2.stderr
        = world.stderr := by
  have e1 := response_of_verify_error lib1 os cfg config verifier state r world tok1 t1 err
    hs hx1 he1 hv1
  have e2 := response_of_verify_error lib2 os cfg config verifier state r world tok2 t2 err
    hs hx2 he2 hv2
  refine ⟨?_, ?_, ?_, ?_, ?_⟩
  · rw [e1, httpError_new]; rfl
  · rw [e1, httpError_new]
    exact string_empty_append _
  · rw [e1, e2]
  · simp [callbackHandler, hs, hx1, he1, hv1]
  · simp [callbackHandler, hs, hx1, he1, hv1]

/-- Witness of C4: the sample exchange answers the code `bad` with the token
`F`, the other exchange answers with the token `x.y.z`; the verifier rejects
both with the same error text, and the two responses are equal. -/
theorem verify_failure_response_witness :
    sampleVerifier "F" = .error "oidc: malformed jwt" ∧
      sampleVerifier "x.y.z" = .error "oidc: malformed jwt" ∧
      (callbackHandler sampleLib noFaults sampleCfg sampleConfig sampleVerifier
          "abcdefghijklmnop" ResponseWriter.new
          (callbackRequest ["abcdefghijklmnop"] ["bad"]) world0).1.body
        = "Failed to verify ID Token: " ++ "oidc: malformed jwt" ++ "\n" ∧
      (callbackHandler sampleLib noFaults sampleCfg sampleConfig sampleVerifier
          "abcdefghijklmnop" ResponseWriter.new
          (callbackRequest ["abcdefghijklmnop"] ["bad"]) world0).1
        = (callbackHandler otherLib noFaults sampleCfg sampleConfig sampleVerifier
          "abcdefghijklmnop" ResponseWriter.new
          (callbackRequest ["abcdefghijklmnop"] ["bad"]) world0).1 :=
  have h := verify_failure_response sampleLib otherLib
    noFaults sampleCfg sampleConfig sampleVerifier
    "abcdefghijklmnop" (callbackRequest ["abcdefghijklmnop"] ["bad"]) world0
    { accessToken := "at", extra := fun k => if k = "id_token" then .str "F" else .nil }
    { accessToken := "at", extra := fun _ => .str "x.y.z" }
    "F" "x.y.z" "oidc: malformed jwt" (by decide) rfl rfl rfl rfl rfl rfl
  ⟨rfl, rfl, h.2.1, h.2.2.1⟩

/-- C5, as stated, fails: with expected state `abcdefghijklmnop` and received
state `forged`, the body of the 400 response contains neither value. -/
theorem mismatch_body_counterexample :
    ¬ ∀ (lib : Lib) (os : OSFaults) (cfg : cliConfig) (config : OAuth2Config)
        (verifier : Verifier) (state : String) (r : Request) (world : World),
        r.Get "state" ≠ state →
        Contains
          (callbackHandler lib os cfg config verifier state ResponseWriter.new r world).1.body
          state ∧
        Contains
          (callbackHandler lib os cfg config verifier state ResponseWriter.new r world).1.body
          (r.Get "state") := by
  intro h
  have h1 := (h sampleLib noFaults sampleCfg sampleConfig sampleVerifier "abcdefghijklmnop"
    (callbackRequest ["forged"] ["good"]) world0 (by decide)).1
  revert h1
  decide

/-- C5, amended: on a state mismatch the body of the 400 response is exactly
`state did not match` and a newline; the expected and the received state are
printed on the standard output, in one line that contains both. -/
theorem mismatch_body_and_console (lib : Lib) (os : OSFaults) (cfg : cliConfig)
    (config : OAuth2Config) (verifier : Verifier) (state : String) (r : Request)
    (world : World) (h : r.Get "state" ≠ state) :
    (callbackHandler lib os cfg config verifier state ResponseWriter.new r world).1.status
        = some 400 ∧
      (callbackHandler lib os cfg config verifier state ResponseWriter.new r world).1.body
        = "state did not match\n" ∧
      (callbackHandler lib os cfg config verifier state ResponseWriter.new r world).2.stdout
        = world.stdout ++ ("my state[" ++ state ++ "] != returned state[" ++ r.Get "state"
            ++ "]. URL: " ++ r.url ++ "\n") ∧
      Contains
        (callbackHandler lib os cfg config verifier state ResponseWriter.new r world).2.stdout
        state ∧
      Contains
        (callbackHandler lib os cfg config verifier state ResponseWriter.new r world).2.stdout
        (r.Get "state") := by
  have hout : (callbackHandler lib os cfg config verifier state ResponseWriter.new r world).2.stdout
      = world.stdout ++ ("my state[" ++ state ++ "] != returned state[" ++ r.Get "state"
          ++ "]. URL: " ++ r.url ++ "\n") := by
    simp [callbackHandler, h, World.print]
  rw [hout, response_of_mismatch lib os cfg config verifier state r world h, httpError_new]
  refine ⟨rfl, ?_, rfl, ?_, ?_⟩
  · show "" ++ ("state did not match" ++ "\n") = "state did not match\n"
    rw [string_empty_append]; rfl
  · apply contains_of_data_eq _ _ (world.stdout ++ "my state[").data
      ("] != returned state[" ++ r.Get "state" ++ "]. URL: " ++ r.url ++ "\n").data
    simp [String.data_append, List.append_assoc]
  · apply contains_of_data_eq _ _
      (world.stdout ++ "my state[" ++ state ++ "] != returned state[").data
      ("]. URL: " ++ r.url ++ "\n").data
    simp [String.data_append, List.append_assoc]

/-- Witness of the amended C5: expected state `abcdefghijklmnop`, received
state `forged`. -/
theorem mismatch_body_and_console_witness :
    (callbackRequest ["forged"] ["good"]).Get "state" ≠ "abcdefghijklmnop" ∧
      (callbackHandler sampleLib noFaults sampleCfg sampleConfig sampleVerifier
          "abcdefghijklmnop" ResponseWriter.new (callbackRequest ["forged"] ["good"])
          world0).1.body = "state did not match\n" :=
  ⟨by decide, (mismatch_body_and_console sampleLib noFaults sampleCfg sampleConfig
    sampleVerifier "abcdefghijklmnop" (callbackRequest ["forged"] ["good"]) world0
    (by decide)).2.1⟩

/-! ## Theorems about `main` and `randStringRunes` -/

/-- C6: the argument check of `main` lets a configuration through to provider
discovery exactly when issuer, client id and client secret are non-empty and
daemon and save-token are not both set.  Every other configuration ends the
process with exit status 1 after one message on the standard output, with no
discovery, no handler registered and no listener; the message names the first
failing option in the order issuer, client id, client secret, daemon/save
conflict.  A configuration that passes, with discovery and state generation
succeeding, leads to both handlers being registered and the listener being
started. -/
theorem main_argument_check {σ : Type} (lib : Lib) (rnd : RandSource σ) (seed : σ)
    (cfg : cliConfig) (world : World) :
    ((main lib rnd seed cfg world).world.providerCalls = world.providerCalls ++ [cfg.issuer]
        ↔ ValidConfig cfg) ∧
      (¬ ValidConfig cfg →
        (main lib rnd seed cfg world).world.exit = some 1 ∧
        (main lib rnd seed cfg world).world.providerCalls = world.providerCalls ∧
        (main lib rnd seed cfg world).handlers = [] ∧
        (main lib rnd seed cfg world).listening = none ∧
        (main lib rnd seed cfg world).world.stderr = world.stderr ∧
        (cfg.issuer = "" →
          (main lib rnd seed cfg world).world.stdout
            = world.stdout ++ "Must provide an issuer\n") ∧
        (cfg.issuer ≠ "" → cfg.clientID = "" →
          (main lib rnd seed cfg world).world.stdout
            = world.stdout ++ "Must provide a client id\n") ∧
        (cfg.issuer ≠ "" → cfg.clientID ≠ "" → cfg.clientSecret = "" →
          (main lib rnd seed cfg world).world.stdout
            = world.stdout ++ "Must provide a client secret\n") ∧
        (cfg.issuer ≠ "" → cfg.clientID ≠ "" → cfg.clientSecret ≠ "" →
          (main lib rnd seed cfg world).world.stdout
            = world.stdout ++ "Cannot set both daemon and saveToken\n")) ∧
      (ValidConfig cfg → ∀ provider state s1, lib.newProvider cfg.issuer = .ok provider →
        randStringRunes rnd 16 seed = some (state, s1) →
        (main lib rnd seed cfg world).handlers.map Prod.fst = ["/", "/auth/callback"] ∧
        (main lib rnd seed cfg world).listening = some ("127.0.0.1:" ++ cfg.port)) := by
  have hrej : ¬ ValidConfig cfg →
      ∃ msg, main lib rnd seed cfg world = Process.ended ((world.print msg).Exit 1) ∧
        (cfg.issuer = "" → msg = "Must provide an issuer\n") ∧
        (cfg.issuer ≠ "" → cfg.clientID = "" → msg = "Must provide a client id\n") ∧
        (cfg.issuer ≠ "" → cfg.clientID ≠ "" → cfg.clientSecret = "" →
          msg = "Must provide a client secret\n") ∧
        (cfg.issuer ≠ "" → cfg.clientID ≠ "" → cfg.clientSecret ≠ "" →
          msg = "Cannot set both daemon and saveToken\n") :=
    main_of_invalid lib rnd seed cfg world
  refine ⟨⟨?_, ?_⟩, ?_, ?_⟩
  · intro hcalls
    by_contra hv
    obtain ⟨msg, hm, -⟩ := hrej hv
    rw [hm] at hcalls
    have hlen := congrArg List.length hcalls
    simp [Process.ended, World.print, World.Exit] at hlen
  · intro hv
    obtain ⟨h1, h2, h3, h4⟩ := hv
    have h4b : (cfg.daemon && cfg.saveToken) = false := by
      cases hd : cfg.daemon <;> cases hsv : cfg.saveToken <;> simp_all
    simp only [main, utf8ByteSize_eq_zero, h1, h2, h3, h4b, if_false, Bool.false_eq_true]
    cases lib.newProvider cfg.issuer with
    | error err => rfl
    | ok provider =>
      cases randStringRunes rnd 16 seed with
      | none => rfl
      | some st =>
        cases lib.listenAndServe ("127.0.0.1:" ++ cfg.port) <;> rfl
  · intro hv
    obtain ⟨msg, hm, m1, m2, m3, m4⟩ := hrej hv
    rw [hm]
    refine ⟨rfl, rfl, rfl, rfl, rfl, ?_, ?_, ?_, ?_⟩
    · intro a; rw [← m1 a]; rfl
    · intro a b; rw [← m2 a b]; rfl
    · intro a b c; rw [← m3 a b c]; rfl
    · intro a b c; rw [← m4 a b c]; rfl
  · intro hv provider state s1 hp hst
    obtain ⟨-, -, hh, hl, -⟩ := main_of_valid lib rnd seed cfg world provider state s1 hv hp hst
    rw [hh, hl]
    exact ⟨rfl, rfl⟩

/-- C10: for every `n ≥ 0` and every random source whose draws for 52 lie
below 52, `randStringRunes(n)` returns (no index is out of range) a string of
exactly `n` characters, each one of the 52 letters of `letterRunes`.  Hence,
once the arguments are accepted and the provider is discovered, the state of
`main` is a 16-letter token, and the handler of `/` redirects with status 302
to `AuthCodeURL` of that state. -/
theorem randStringRunes_spec {σ : Type} (rnd : RandSource σ) (n : Int) (seed : σ)
    (hn : 0 ≤ n) (hr : ∀ s, (rnd.intn 52 s).1 < 52) :
    (∃ str s1, randStringRunes rnd n seed = some (str, s1) ∧ (str.length : Int) = n ∧
        ∀ c ∈ str.data, c ∈ letterRunes) ∧
      letterRunes.length = 52 ∧ (∀ c ∈ letterRunes, c.isAlpha = true) ∧
      (∀ (lib : Lib) (cfg : cliConfig) (world : World) (provider : Provider),
        ValidConfig cfg → lib.newProvider cfg.issuer = .ok provider →
        ∃ state, (main lib rnd seed cfg world).state = some state ∧ state.length = 16 ∧
          (∀ c ∈ state.data, c ∈ letterRunes) ∧
          ∃ h, (main lib rnd seed cfg world).handlers.head? = some ("/", h) ∧
            ∀ os w r wd, h os w r wd =
              (lib.redirect w r (lib.authCodeURL (mainConfig cfg provider) state) StatusFound,
                wd)) := by
  refine ⟨randStringRunes_ok rnd n seed hn hr, letterRunes_length, by decide, ?_⟩
  intro lib cfg world provider hv hp
  obtain ⟨state, s1, hst, hlen, hmem⟩ := randStringRunes_ok rnd 16 seed (by decide) hr
  obtain ⟨h1, -, hh, -, -⟩ := main_of_valid lib rnd seed cfg world provider state s1 hv hp hst
  refine ⟨state, h1, by exact_mod_cast hlen, hmem, _, by rw [hh]; rfl, ?_⟩
  intro os w r wd
  rfl

/-- Witness of C10: sixteen draws of the linear congruential generator from
seed 42. -/
theorem randStringRunes_spec_witness :
    (0 : Int) ≤ 16 ∧ (∀ s, (lcg.intn 52 s).1 < 52) ∧
      ∃ str s1, randStringRunes lcg 16 42 = some (str, s1) ∧ (str.length : Int) = 16 ∧
        ∀ c ∈ str.data, c ∈ letterRunes :=
  ⟨by decide, fun s => Nat.mod_lt s (by decide),
    (randStringRunes_spec lcg 16 42 (by decide) (fun s => Nat.mod_lt s (by decide))).1⟩

/-! ## Theorems about the save, display and daemon modes -/

/-- C7: in save mode (save-token set, daemon not set), after a successful flow
in which directory creation, open and write all succeed, the token file holds
exactly the raw identity token, whatever the file held before; the file is
opened with truncate and create and mode 0600, and a file that did not exist
gets that mode.  A second successful flow with token `t2` leaves exactly `t2`
in the file, not the first token followed by `t2`. -/
theorem persist_overwrites (lib : Lib) (cfg : cliConfig) (config : OAuth2Config)
    (verifier : Verifier) (state : String) (r1 r2 : Request) (world : World)
    (t1 t2 : String) (hd : cfg.daemon = false) (hsv : cfg.saveToken = true)
    (h1 : Successful lib config verifier state r1 t1)
    (h2 : Successful lib config verifier state r2 t2) :
    ((callbackHandler lib noFaults cfg config verifier state ResponseWriter.new r1
          world).2.fs.files cfg.tokenFile).map FileEntry.content = some t1 ∧
      ((callbackHandler lib noFaults cfg config verifier state ResponseWriter.new r2
          (callbackHandler lib noFaults cfg config verifier state ResponseWriter.new r1
            world).2).2.fs.files cfg.tokenFile).map FileEntry.content = some t2 ∧
      (t1 ≠ "" →
        ((callbackHandler lib noFaults cfg config verifier state ResponseWriter.new r2
          (callbackHandler lib noFaults cfg config verifier state ResponseWriter.new r1
            world).2).2.fs.files cfg.tokenFile).map FileEntry.content ≠ some (t1 ++ t2)) ∧
      newFsCalls world
          (callbackHandler lib noFaults cfg config verifier state ResponseWriter.new r1 world).2
        = [FsCall.mkdirAll (lib.pathDir cfg.tokenFile) 0o700,
           FsCall.openFile cfg.tokenFile (O_TRUNC ||| O_CREATE ||| O_RDWR) 0o600,
           FsCall.write cfg.tokenFile t1, FsCall.close cfg.tokenFile] ∧
      (world.fs.files cfg.tokenFile = none →
        ((callbackHandler lib noFaults cfg config verifier state ResponseWriter.new r1
          world).2.fs.files cfg.tokenFile).map FileEntry.perm = some 0o600) := by
  have run : ∀ (r : Request) (w : World) (t : String),
      Successful lib config verifier state r t →
      ∃ e : FileEntry,
        (callbackHandler lib noFaults cfg config verifier state ResponseWriter.new r
          w).2.fs.files cfg.tokenFile = some { content := t, perm := e.perm } ∧
        (w.fs.files cfg.tokenFile = none → e.perm = 0o600) := by
    intro r w t h
    exact (persist_world_fields lib noFaults cfg config verifier state r w t h hd hsv
      rfl rfl).1
  obtain ⟨e1, hf1, hp1⟩ := run r1 world t1 h1
  obtain ⟨e2, hf2, -⟩ := run r2
    (callbackHandler lib noFaults cfg config verifier state ResponseWriter.new r1 world).2
    t2 h2
  refine ⟨?_, ?_, ?_, ?_, ?_⟩
  · rw [hf1]; rfl
  · rw [hf2]; rfl
  · intro hne
    rw [hf2]
    intro e
    exact append_left_ne t1 t2 hne (Option.some.inj e)
  · exact newFsCalls_of_append _ _ _
      (persist_world_fields lib noFaults cfg config verifier state r1 world t1 h1 hd hsv
        rfl rfl).2.1
  · intro hn
    rw [hf1]
    exact congrArg some (hp1 hn)

/-- Witness of C7: the token file holds a longer stale token; the code `good`
and then the code `markup` are exchanged and saved. -/
theorem persist_overwrites_witness :
    ((callbackHandler sampleLib noFaults saveCfg sampleConfig sampleVerifier
        "abcdefghijklmnop" ResponseWriter.new
        (callbackRequest ["abcdefghijklmnop"] ["good"]) staleWorld).2.fs.files
          saveCfg.tokenFile).map FileEntry.content = some "eyJ.e30.sig" ∧
      ((callbackHandler sampleLib noFaults saveCfg sampleConfig sampleVerifier
        "abcdefghijklmnop" ResponseWriter.new
        (callbackRequest ["abcdefghijklmnop"] ["markup"])
        (callbackHandler sampleLib noFaults saveCfg sampleConfig sampleVerifier
          "abcdefghijklmnop" ResponseWriter.new
          (callbackRequest ["abcdefghijklmnop"] ["good"]) staleWorld).2).2.fs.files
          saveCfg.tokenFile).map FileEntry.content = some "e<b>&</pre>\"" :=
  have h := persist_overwrites sampleLib saveCfg sampleConfig sampleVerifier
    "abcdefghijklmnop" (callbackRequest ["abcdefghijklmnop"] ["good"])
    (callbackRequest ["abcdefghijklmnop"] ["markup"]) staleWorld "eyJ.e30.sig"
    "e<b>&</pre>\"" rfl rfl ⟨by decide, _, rfl, rfl, _, rfl⟩ ⟨by decide, _, rfl, rfl, _, rfl⟩
  ⟨h.1, h.2.1⟩

/-- C8 at its failing input: in save mode, with directory creation and open
succeeding and the write of the token failing with no byte written, the run
ends with no exit status, nothing on the standard error, the line
`Token saved on to /home/u/.oidc/token` on the standard output, an exit with
status 0 scheduled, and an empty token file.  (With the directory creation or
the open failing instead, the run exits with status 1 after a message on the
standard error.) -/
theorem persist_write_failure_not_fatal :
    (callbackHandler sampleLib writeFails saveCfg sampleConfig sampleVerifier
        "abcdefghijklmnop" ResponseWriter.new
        (callbackRequest ["abcdefghijklmnop"] ["good"]) world0).2.exit = none ∧
      (callbackHandler sampleLib writeFails saveCfg sampleConfig sampleVerifier
        "abcdefghijklmnop" ResponseWriter.new
        (callbackRequest ["abcdefghijklmnop"] ["good"]) world0).2.stderr = "" ∧
      (callbackHandler sampleLib writeFails saveCfg sampleConfig sampleVerifier
        "abcdefghijklmnop" ResponseWriter.new
        (callbackRequest ["abcdefghijklmnop"] ["good"]) world0).2.stdout
        = "Token saved on to /home/u/.oidc/token\nDone\n" ∧
      (callbackHandler sampleLib writeFails saveCfg sampleConfig sampleVerifier
        "abcdefghijklmnop" ResponseWriter.new
        (callbackRequest ["abcdefghijklmnop"] ["good"]) world0).2.timers
        = [{ delay := Second, code := 0 }] ∧
      ((callbackHandler sampleLib writeFails saveCfg sampleConfig sampleVerifier
        "abcdefghijklmnop" ResponseWriter.new
        (callbackRequest ["abcdefghijklmnop"] ["good"]) world0).2.fs.files
          "/home/u/.oidc/token").map FileEntry.content = some "" ∧
      (callbackHandler sampleLib mkdirFails saveCfg sampleConfig sampleVerifier
        "abcdefghijklmnop" ResponseWriter.new
        (callbackRequest ["abcdefghijklmnop"] ["good"]) world0).2.exit = some 1 ∧
      (callbackHandler sampleLib openFails saveCfg sampleConfig sampleVerifier
        "abcdefghijklmnop" ResponseWriter.new
        (callbackRequest ["abcdefghijklmnop"] ["good"]) world0).2.exit = some 1 := by
  refine ⟨by decide, by decide, by decide, by decide, by decide, by decide, by decide⟩

/-- C9, as stated, fails: in save mode with the directory creation failing, a
successful callback neither writes the token file nor schedules an exit,
although save-token is set and daemon is not. -/
theorem lifecycle_iff_counterexample :
    ¬ ∀ (lib : Lib) (os : OSFaults) (cfg : cliConfig) (config : OAuth2Config)
        (verifier : Verifier) (state : String) (r : Request) (world : World) (t : String),
        Successful lib config verifier state r t →
        ((TokenFileWritten world
              (callbackHandler lib os cfg config verifier state ResponseWriter.new r world).2
              cfg.tokenFile t ∧
            { delay := Second, code := 0 } ∈ newTimers world
              (callbackHandler lib os cfg config verifier state ResponseWriter.new r world).2)
          ↔ (cfg.saveToken = true ∧ cfg.daemon = false)) := by
  intro h
  have h1 := (h sampleLib mkdirFails saveCfg sampleConfig sampleVerifier "abcdefghijklmnop"
    (callbackRequest ["abcdefghijklmnop"] ["good"]) world0 "eyJ.e30.sig"
    ⟨by decide, _, rfl, rfl, _, rfl⟩).mpr ⟨rfl, rfl⟩
  revert h1
  decide

/-- C9, amended: after a successful callback, (a) with daemon set nothing
further happens: file system, calls to the `os` package, both console streams,
exit status and timers are as before; (b) with neither daemon nor save-token
set the line `Done` is printed and file system, `os` calls, standard error,
exit status and timers are as before; (c) a write to the token file is issued
or an exit is scheduled only if save-token is set and daemon is not; (d) in
that mode, when directory creation, open and write all succeed, the token
file is written (the write is issued and the file holds exactly the token)
and one exit with status 0 after a second is scheduled, with no exit before;
(e) in that mode, when directory creation or open fails, the process exits at
once with status 1, with no write issued and no exit scheduled.  A failing
write is not covered. -/
theorem lifecycle_dispatch (lib : Lib) (os : OSFaults) (cfg : cliConfig)
    (config : OAuth2Config) (verifier : Verifier) (state : String) (r : Request)
    (world : World) (t : String) (h : Successful lib config verifier state r t) :
    (cfg.daemon = true →
        (callbackHandler lib os cfg config verifier state ResponseWriter.new r world).2.fs
          = world.fs ∧
        (callbackHandler lib os cfg config verifier state ResponseWriter.new r world).2.fsCalls
          = world.fsCalls ∧
        (callbackHandler lib os cfg config verifier state ResponseWriter.new r world).2.stdout
          = world.stdout ∧
        (callbackHandler lib os cfg config verifier state ResponseWriter.new r world).2.stderr
          = world.stderr ∧
        (callbackHandler lib os cfg config verifier state ResponseWriter.new r world).2.exit
          = world.exit ∧
        (callbackHandler lib os cfg config verifier state ResponseWriter.new r world).2.timers
          = world.timers) ∧
      (cfg.daemon = false → cfg.saveToken = false →
        (callbackHandler lib os cfg config verifier state ResponseWriter.new r world).2.stdout
          = world.stdout ++ "Done\n" ∧
        (callbackHandler lib os cfg config verifier state ResponseWriter.new r world).2.fs
          = world.fs ∧
        (callbackHandler lib os cfg config verifier state ResponseWriter.new r world).2.fsCalls
          = world.fsCalls ∧
        (callbackHandler lib os cfg config verifier state ResponseWriter.new r world).2.stderr
          = world.stderr ∧
        (callbackHandler lib os cfg config verifier state ResponseWriter.new r world).2.exit
          = world.exit ∧
        (callbackHandler lib os cfg config verifier state ResponseWriter.new r world).2.timers
          = world.timers) ∧
      ((FsCall.write cfg.tokenFile t ∈ newFsCalls world
            (callbackHandler lib os cfg config verifier state ResponseWriter.new r world).2 ∨
          newTimers world
            (callbackHandler lib os cfg config verifier state ResponseWriter.new r world).2 ≠ [])
        → cfg.saveToken = true ∧ cfg.daemon = false) ∧
      (cfg.saveToken = true → cfg.daemon = false → os.mkdirAll = none → os.openFile = none →
        os.write = none →
        TokenFileWritten world
          (callbackHandler lib os cfg config verifier state ResponseWriter.new r world).2
          cfg.tokenFile t ∧
        newTimers world
          (callbackHandler lib os cfg config verifier state ResponseWriter.new r world).2
          = [{ delay := Second, code := 0 }] ∧
        (callbackHandler lib os cfg config verifier state ResponseWriter.new r world).2.exit
          = world.exit) ∧
      (cfg.saveToken = true → cfg.daemon = false →
        (os.mkdirAll ≠ none ∨ os.openFile ≠ none) →
        (callbackHandler lib os cfg config verifier state ResponseWriter.new r world).2.exit
          = some 1 ∧
        FsCall.write cfg.tokenFile t ∉ newFsCalls world
          (callbackHandler lib os cfg config verifier state ResponseWriter.new r world).2 ∧
        newTimers world
          (callbackHandler lib os cfg config verifier state ResponseWriter.new r world).2
          = []) := by
  have hA : cfg.daemon = true →
      (callbackHandler lib os cfg config verifier state ResponseWriter.new r world).2
        = afterVerify world (r.Get "code") t :=
    world_of_daemon lib os cfg config verifier state r world t h
  have hB : cfg.daemon = false → cfg.saveToken = false →
      (callbackHandler lib os cfg config verifier state ResponseWriter.new r world).2
        = (afterVerify world (r.Get "code") t).print "Done\n" :=
    world_of_display lib os cfg config verifier state r world t h
  refine ⟨?_, ?_, ?_, ?_, ?_⟩
  · intro hd
    rw [hA hd]
    exact ⟨rfl, rfl, rfl, rfl, rfl, rfl⟩
  · intro hd hsv
    rw [hB hd hsv]
    exact ⟨rfl, rfl, rfl, rfl, rfl, rfl⟩
  · intro hprem
    cases hd : cfg.daemon with
    | true =>
      exfalso
      rw [hA hd] at hprem
      have e1 : newFsCalls world (afterVerify world (r.Get "code") t) = [] :=
        newFsCalls_of_append _ _ _ (by simp [afterVerify])
      have e2 : newTimers world (afterVerify world (r.Get "code") t) = [] :=
        newTimers_of_append _ _ _ (by simp [afterVerify])
      rw [e1, e2] at hprem
      simp at hprem
    | false =>
      cases hsv : cfg.saveToken with
      | true => exact ⟨rfl, rfl⟩
      | false =>
        exfalso
        rw [hB hd hsv] at hprem
        have e1 : newFsCalls world ((afterVerify world (r.Get "code") t).print "Done\n") = [] :=
          newFsCalls_of_append _ _ _ (by simp [afterVerify, World.print])
        have e2 : newTimers world ((afterVerify world (r.Get "code") t).print "Done\n") = [] :=
          newTimers_of_append _ _ _ (by simp [afterVerify, World.print])
        rw [e1, e2] at hprem
        simp at hprem
  · intro hsv hd hm ho hw
    obtain ⟨⟨e, hfile, -⟩, hcalls, -, -, hexit, htimers⟩ :=
      persist_world_fields lib os cfg config verifier state r world t h hd hsv hm ho
    simp only [hw] at hfile
    refine ⟨⟨?_, ?_⟩, newTimers_of_append _ _ _ htimers, hexit⟩
    · rw [newFsCalls_of_append _ _ _ hcalls]
      simp
    · rw [hfile]
      rfl
  · intro hsv hd hfail
    cases hm : os.mkdirAll with
    | some err =>
      obtain ⟨hexit, hcalls, htimers, -, -⟩ :=
        mkdir_error_fields lib os cfg config verifier state r world t err h hd hsv hm
      rw [newFsCalls_of_append _ _ _ hcalls,
        newTimers_of_append _ _ [] (by rw [htimers, List.append_nil])]
      exact ⟨hexit, by simp, rfl⟩
    | none =>
      cases ho : os.openFile with
      | none =>
        rcases hfail with hf | hf
        · exact absurd hm hf
        · exact absurd ho hf
      | some err =>
        obtain ⟨hexit, hcalls, htimers, -, -⟩ :=
          open_error_fields lib os cfg config verifier state r world t err h hd hsv hm ho
        rw [newFsCalls_of_append _ _ _ hcalls,
          newTimers_of_append _ _ [] (by rw [htimers, List.append_nil])]
        exact ⟨hexit, by simp, rfl⟩

/-- Witness of the amended C9: a successful callback in save mode with every
operating-system call succeeding overwrites the stale token file and schedules
the exit; with the directory creation failing it exits with status 1; in
daemon mode the file system is left as it was. -/
theorem lifecycle_dispatch_witness :
    Successful sampleLib sampleConfig sampleVerifier "abcdefghijklmnop"
        (callbackRequest ["abcdefghijklmnop"] ["good"]) "eyJ.e30.sig" ∧
      (TokenFileWritten staleWorld
          (callbackHandler sampleLib noFaults saveCfg sampleConfig sampleVerifier
            "abcdefghijklmnop" ResponseWriter.new
            (callbackRequest ["abcdefghijklmnop"] ["good"]) staleWorld).2
          saveCfg.tokenFile "eyJ.e30.sig" ∧
        newTimers staleWorld
          (callbackHandler sampleLib noFaults saveCfg sampleConfig sampleVerifier
            "abcdefghijklmnop" ResponseWriter.new
            (callbackRequest ["abcdefghijklmnop"] ["good"]) staleWorld).2
          = [{ delay := Second, code := 0 }] ∧
        (callbackHandler sampleLib noFaults saveCfg sampleConfig sampleVerifier
          "abcdefghijklmnop" ResponseWriter.new
          (callbackRequest ["abcdefghijklmnop"] ["good"]) staleWorld).2.exit
          = staleWorld.exit) ∧
      (callbackHandler sampleLib mkdirFails saveCfg sampleConfig sampleVerifier
          "abcdefghijklmnop" ResponseWriter.new
          (callbackRequest ["abcdefghijklmnop"] ["good"]) staleWorld).2.exit = some 1 ∧
      (callbackHandler sampleLib noFaults daemonCfg sampleConfig sampleVerifier
          "abcdefghijklmnop" ResponseWriter.new
          (callbackRequest ["abcdefghijklmnop"] ["good"]) staleWorld).2.fs = staleWorld.fs :=
  have hs : Successful sampleLib sampleConfig sampleVerifier "abcdefghijklmnop"
      (callbackRequest ["abcdefghijklmnop"] ["good"]) "eyJ.e30.sig" :=
    ⟨by decide, _, rfl, rfl, _, rfl⟩
  ⟨hs,
    (lifecycle_dispatch sampleLib noFaults saveCfg sampleConfig sampleVerifier
      "abcdefghijklmnop" (callbackRequest ["abcdefghijklmnop"] ["good"]) staleWorld
      "eyJ.e30.sig" hs).2.2.2.1 rfl rfl rfl rfl rfl,
    ((lifecycle_dispatch sampleLib mkdirFails saveCfg sampleConfig sampleVerifier
      "abcdefghijklmnop" (callbackRequest ["abcdefghijklmnop"] ["good"]) staleWorld
      "eyJ.e30.sig" hs).2.2.2.2 rfl rfl (Or.inl (by decide))).1,
    ((lifecycle_dispatch sampleLib noFaults daemonCfg sampleConfig sampleVerifier
      "abcdefghijklmnop" (callbackRequest ["abcdefghijklmnop"] ["good"]) staleWorld
      "eyJ.e30.sig" hs).1 rfl).1⟩

end OidcGenToken
